import Mathlib

/-!
# services/httppost/config.go

A shallow embedding of the configuration code of the HTTP-POST alert handler:
`BasicAuth`, `Config`, `Config.Validate`, `GetTemplate`, `Configs.Validate`
and `Configs.index`.

Go strings are Lean strings, a Go `error` is an `Option GoError` (`none` is
`nil`), a `*template.Template` is an `Option T` (`none` is the nil pointer).
The packages the file imports (`text/template`, `net/url`, `io/ioutil`,
`encoding/json`) are collaborators of the code, not part of it: every definition
takes them as an `Env` or a `JsonPkg`, and the general theorems hold for every
such value.  `Go.env` and `Go.jsonPkg` are models of the standard library on a
small fragment, used to evaluate the code on the concrete configurations and
values the specification names.
-/

namespace Httppost

/-! ## Errors (`github.com/pkg/errors`) -/

/-- An error value. `new` is `errors.New`, `wrap` is `errors.Wrap`, `wrapf` is
`errors.Wrapf` with a format holding one `%q` verb and its argument, `ext` is an
error returned by an imported package, and `nilTemplate` stands for the run-time
panic of calling `Execute` on a nil `*template.Template`. -/
inductive GoError where
  | new (msg : String)
  | ext (msg : String)
  | wrap (cause : GoError) (msg : String)
  | wrapf (cause : GoError) (format : String) (arg : String)
  | nilTemplate
  deriving DecidableEq, Repr

/-- The call `errors.Wrap(err, msg)`: nil when `err` is nil. -/
def errorsWrap (err : Option GoError) (msg : String) : Option GoError :=
  err.map (fun e => GoError.wrap e msg)

/-- The call `errors.Wrapf(err, format, arg)`: nil when `err` is nil. -/
def errorsWrapf (err : Option GoError) (format arg : String) : Option GoError :=
  err.map (fun e => GoError.wrapf e format arg)

/-! ## The imported packages -/

/-- The imported packages, as far as the file calls them.
* `parse helpers text` is `template.New("body").Parse(text)`, preceded by
  `.Funcs(...)` registering `json` and `jsonCompact` when `helpers` is true;
  it yields the parsed template or the parser's error;
* `execute t` is `t.Execute(buf, nil)` on a fresh builder: the rendered text, or
  the error;
* `urlParse s` is the error of `url.Parse(s)`, `none` for nil;
* `readFile p` is `ioutil.ReadFile(p)`: the contents, or the error. -/
structure Env (T : Type) where
  parse : Bool → String → Except String T
  execute : T → Except String String
  urlParse : String → Option String
  readFile : String → Except String String

/-- The function `path.IsAbs`: `len(path) > 0 && path[0] == '/'`. -/
def pathIsAbs (path : String) : Bool :=
  match path.data with
  | [] => false
  | c :: _ => c == '/'

/-! ## BasicAuth -/

/-- The struct `BasicAuth`. -/
structure BasicAuth where
  Username : String
  Password : String
  deriving DecidableEq, Repr

/-- The method `BasicAuth.valid`. -/
def BasicAuth.valid (b : BasicAuth) : Bool :=
  b.Username != "" && b.Password != ""

/-- The method `BasicAuth.validate`. -/
def BasicAuth.validate (b : BasicAuth) : Option GoError :=
  if !b.valid then
    some (GoError.new "basic-auth must set both \"username\" and \"password\" parameters")
  else
    none

/-! ## Config -/

/-- The struct `Config`; `Headers` lists the entries of the `map[string]string`. -/
structure Config where
  Endpoint : String
  URLTemplate : String
  Headers : List (String × String)
  BasicAuth : BasicAuth
  AlertTemplate : String
  AlertTemplateFile : String
  RowTemplate : String
  RowTemplateFile : String
  deriving DecidableEq, Repr

/-- The function `NewConfig`: the unset fields hold their zero values. -/
def NewConfig : Config :=
  { Endpoint := "example"
    URLTemplate := "http://example.com"
    Headers := []
    BasicAuth := ⟨"", ""⟩
    AlertTemplate := ""
    AlertTemplateFile := ""
    RowTemplate := ""
    RowTemplateFile := "" }

/-- The function `GetTemplate`: the returned pair `(template, error)`. -/
def GetTemplate {T : Type} (env : Env T) (tmpl tpath : String) : Option T × Option GoError :=
  if tmpl ≠ "" then
    match env.parse true tmpl with
    | .ok t => (some t, errorsWrap none "failed to parse template")
    | .error e => (none, errorsWrap (some (GoError.ext e)) "failed to parse template")
  else if tpath ≠ "" then
    match env.readFile tpath with
    | .error e => (none, errorsWrapf (some (GoError.ext e)) "failed to read template file %q" tpath)
    | .ok data =>
      match env.parse false data with
      | .ok t => (some t, errorsWrapf none "failed to parse template from file %q" tpath)
      | .error e =>
        (none, errorsWrapf (some (GoError.ext e)) "failed to parse template from file %q" tpath)
  else
    (none, none)

/-- The call `urlTemplate.Execute(buf, nil)` followed by `buf.String()`, on a
possibly nil template pointer. -/
def executeTemplate {T : Type} (env : Env T) : Option T → Except GoError String
  | none => .error GoError.nilTemplate
  | some t =>
    match env.execute t with
    | .ok out => .ok out
    | .error e => .error (GoError.ext e)

/-- The method `Config.Validate`. -/
def Config.Validate {T : Type} (env : Env T) (c : Config) : Option GoError :=
  if c.Endpoint = "" then
    some (GoError.new "must specify endpoint name")
  else if c.URLTemplate = "" then
    some (GoError.new "must specify url")
  else
    match GetTemplate env c.URLTemplate "" with
    | (_, some err) => some (GoError.wrapf err "invalid URL template syntax %q" c.URLTemplate)
    | (urlTemplate, none) =>
      match executeTemplate env urlTemplate with
      | .error GoError.nilTemplate => some GoError.nilTemplate
      | .error err => some (GoError.wrapf err "invalid URL template syntax %q" c.URLTemplate)
      | .ok executedURL =>
        match (if c.URLTemplate = executedURL then env.urlParse executedURL else none) with
        | some err => some (GoError.wrapf (GoError.ext err) "invalid URL %q" executedURL)
        | none =>
          if c.AlertTemplate ≠ "" ∧ c.AlertTemplateFile ≠ "" then
            some (GoError.new "must specify only one of alert-template and alert-template-file")
          else if c.AlertTemplateFile ≠ "" ∧ !pathIsAbs c.AlertTemplateFile then
            some (GoError.new "must use an absolute path for alert-template-file")
          else if c.RowTemplate ≠ "" ∧ c.RowTemplateFile ≠ "" then
            some (GoError.new "must specify only one of row-template and row-template-file")
          else if c.RowTemplateFile ≠ "" ∧ !pathIsAbs c.RowTemplateFile then
            some (GoError.new "must use an absolute path for row-template-file")
          else
            none

/-- The method `Config.getAlertTemplate`. -/
def Config.getAlertTemplate {T : Type} (env : Env T) (c : Config) : Option T × Option GoError :=
  GetTemplate env c.AlertTemplate c.AlertTemplateFile

/-- The method `Config.getRowTemplate`. -/
def Config.getRowTemplate {T : Type} (env : Env T) (c : Config) : Option T × Option GoError :=
  GetTemplate env c.RowTemplate c.RowTemplateFile

/-- The method `Config.getURLTemplate`. -/
def Config.getURLTemplate {T : Type} (env : Env T) (c : Config) : Option T × Option GoError :=
  GetTemplate env c.URLTemplate ""

/-! ## Endpoint and Configs -/

/-- Modelled from the spec: the type `Endpoint` is declared outside this file; the
specification gives an Endpoint as the record of the URL template, the headers,
the basic-auth value, the alert template and the row template it was constructed
from. `Configs.index` takes the constructor as a parameter; this record is the
instance used to evaluate it. -/
structure Endpoint (T : Type) where
  urlTemplate : Option T
  headers : List (String × String)
  auth : BasicAuth
  alertTemplate : Option T
  rowTemplate : Option T
  deriving DecidableEq, Repr

/-- Modelled from the spec: the constructor `NewEndpoint(urlt, headers, auth, at, rt)`,
which stores its five arguments. -/
def NewEndpoint {T : Type} (urlt : Option T) (headers : List (String × String))
    (auth : BasicAuth) (atmpl rtmpl : Option T) : Endpoint T :=
  { urlTemplate := urlt, headers := headers, auth := auth,
    alertTemplate := atmpl, rowTemplate := rtmpl }

/-- A Go `map[string]V`, as the list of its entries; `mapSet` keeps the keys
distinct. -/
abbrev GoMap (V : Type) := List (String × V)

/-- The assignment `m[k] = v`: replaces the entry under `k`, or adds one. -/
def mapSet {V : Type} : GoMap V → String → V → GoMap V
  | [], k, v => [(k, v)]
  | (k0, v0) :: rest, k, v =>
    if k0 = k then (k, v) :: rest else (k0, v0) :: mapSet rest k v

/-- The lookup `m[k]`: the value under `k`, if there is an entry. -/
def mapGet {V : Type} : GoMap V → String → Option V
  | [], _ => none
  | (k0, v0) :: rest, k => if k0 = k then some v0 else mapGet rest k

/-- The keys of a map. -/
def mapKeys {V : Type} (m : GoMap V) : List String :=
  m.map Prod.fst

/-- The type `Configs`. -/
abbrev Configs := List Config

/-- The method `Configs.Validate`. -/
def Configs.Validate {T : Type} (env : Env T) : Configs → Option GoError
  | [] => none
  | c :: cs =>
    match c.Validate env with
    | some err => some err
    | none => Configs.Validate env cs

/-- The loop of `Configs.index`, from the map `m` built so far: the returned pair
`(map, error)`, where `none` in the first component is the nil map. The
constructor `NewEndpoint`, declared outside this file, is the parameter
`newEndpoint`. -/
def Configs.indexLoop {T E : Type} (env : Env T)
    (newEndpoint : Option T → List (String × String) → BasicAuth → Option T → Option T → E) :
    GoMap E → Configs → Option (GoMap E) × Option GoError
  | m, [] => (some m, none)
  | m, c :: cs =>
    match c.getAlertTemplate env with
    | (_, some err) =>
      (none, some (GoError.wrapf err "failed to get alert-template for endpoint %q" c.Endpoint))
    | (atmpl, none) =>
      match c.getRowTemplate env with
      | (_, some err) =>
        (none, some (GoError.wrapf err "failed to get row-template for endpoint %q" c.Endpoint))
      | (rtmpl, none) =>
        match c.getURLTemplate env with
        | (_, some err) =>
          (none, some (GoError.wrapf err "failed to get url for endpoint %q" c.Endpoint))
        | (urlt, none) =>
          Configs.indexLoop env newEndpoint
            (mapSet m c.Endpoint (newEndpoint urlt c.Headers c.BasicAuth atmpl rtmpl)) cs

/-- The method `Configs.index`: the loop started from the empty map. -/
def Configs.index {T E : Type} (env : Env T)
    (newEndpoint : Option T → List (String × String) → BasicAuth → Option T → Option T → E)
    (cs : Configs) : Option (GoMap E) × Option GoError :=
  Configs.indexLoop env newEndpoint [] cs

/-! ## A model of the standard library

`Go.env` follows the Go standard library on the inputs the examples use.
`net/url` is followed for the accept/reject decision of `url.Parse`;
`text/template` is followed on the sources made of literal text, field actions
such as `.Host`, the dot action, and calls of a helper on the dot. -/

namespace Go

/-- The split of `s` at the first occurrence of `pat`: the text before it and the
text after it (`strings.Index`, `strings.Cut`). -/
def cutAt (pat : List Char) : List Char → Option (List Char × List Char)
  | [] => if pat = [] then some ([], []) else none
  | c :: cs =>
    if pat.isPrefixOf (c :: cs) then some ([], (c :: cs).drop pat.length)
    else (cutAt pat cs).map (fun p => (c :: p.1, p.2))

/-- The split of `s` at the last occurrence of the byte `sep` (`strings.LastIndex`). -/
def cutAtLast (sep : Char) (s : List Char) : Option (List Char × List Char) :=
  (cutAt [sep] s.reverse).map (fun p => (p.2.reverse, p.1.reverse))

/-- An ASCII letter. -/
def isLetter (c : Char) : Bool :=
  (97 ≤ c.toNat && c.toNat ≤ 122) || (65 ≤ c.toNat && c.toNat ≤ 90)

/-- An ASCII digit. -/
def isDigit (c : Char) : Bool :=
  48 ≤ c.toNat && c.toNat ≤ 57

/-! ### net/url -/

/-- The function `stringContainsCTLByte`. -/
def stringContainsCTLByte (s : List Char) : Bool :=
  s.any (fun c => c.toNat < 32 || c.toNat = 127)

/-- The loop of `getScheme` over the bytes not yet read; `atStart` is `i == 0` and
`seen` holds the bytes already read. -/
def getSchemeLoop (rawURL : List Char) :
    Bool → List Char → List Char → Except String (List Char × List Char)
  | _, _, [] => .ok ([], rawURL)
  | atStart, seen, c :: cs =>
    if isLetter c then getSchemeLoop rawURL false (seen ++ [c]) cs
    else if isDigit c || c = '+' || c = '-' || c = '.' then
      if atStart then .ok ([], rawURL) else getSchemeLoop rawURL false (seen ++ [c]) cs
    else if c = ':' then
      if atStart then .error "missing protocol scheme" else .ok (seen, cs)
    else .ok ([], rawURL)

/-- The function `getScheme`: the scheme and the rest, or the error. -/
def getScheme (rawURL : List Char) : Except String (List Char × List Char) :=
  getSchemeLoop rawURL true [] rawURL

/-- The function `ishex`. -/
def ishex (c : Char) : Bool :=
  isDigit c || (97 ≤ c.toNat && c.toNat ≤ 102) || (65 ≤ c.toNat && c.toNat ≤ 70)

/-- The function `unhex`. -/
def unhex (c : Char) : Nat :=
  if isDigit c then c.toNat - 48
  else if 97 ≤ c.toNat && c.toNat ≤ 102 then c.toNat - 97 + 10
  else if 65 ≤ c.toNat && c.toNat ≤ 70 then c.toNat - 65 + 10
  else 0

/-- The encoding modes of `net/url` that `Parse` uses. -/
inductive Encoding where
  | encodePath
  | encodeHost
  | encodeZone
  | encodeUserPassword
  | encodeFragment
  deriving DecidableEq, Repr

/-- The function `shouldEscape` in the modes `encodeHost` and `encodeZone`, on the
byte with code `c`: letters, digits, the sub-delimiters allowed in a host and the
unreserved marks need no escape. -/
def shouldEscapeHost (c : Nat) : Bool :=
  if (97 ≤ c && c ≤ 122) || (65 ≤ c && c ≤ 90) || (48 ≤ c && c ≤ 57) then false
  else if [33, 36, 38, 39, 40, 41, 42, 43, 44, 59, 61, 58, 91, 93, 60, 62, 34].contains c then false
  else if [45, 95, 46, 126].contains c then false
  else true

/-- The error of `unescape(s, mode)`, `none` for nil: the escapes must be
well-formed and, in a host or zone, every byte must be allowed there. -/
def unescapeErr (mode : Encoding) : List Char → Option String
  | [] => none
  | c :: rest =>
    if c = '%' then
      match rest with
      | h1 :: h2 :: rest2 =>
        if !(ishex h1 && ishex h2) then some "invalid URL escape"
        else if mode = Encoding.encodeHost && unhex h1 < 8 && !(h1 = '2' && h2 = '5') then
          some "invalid URL escape"
        else if mode = Encoding.encodeZone && !(h1 = '2' && h2 = '5')
            && unhex h1 * 16 + unhex h2 ≠ 32 && shouldEscapeHost (unhex h1 * 16 + unhex h2) then
          some "invalid URL escape"
        else unescapeErr mode rest2
      | _ => some "invalid URL escape"
    else if (mode = Encoding.encodeHost || mode = Encoding.encodeZone)
        && c.toNat < 128 && shouldEscapeHost c.toNat then
      some "invalid character in host name"
    else unescapeErr mode rest

/-- The function `validOptionalPort`. -/
def validOptionalPort : List Char → Bool
  | [] => true
  | c :: rest => c = ':' && rest.all isDigit

/-- The function `validUserinfo`. -/
def validUserinfo (s : List Char) : Bool :=
  s.all (fun r => isLetter r || isDigit r ||
    [45, 46, 95, 58, 126, 33, 36, 38, 39, 40, 41, 42, 43, 44, 59, 61, 37, 64].contains r.toNat)

/-- The error of `parseHost(host)`, `none` for nil. -/
def parseHostErr (host : List Char) : Option String :=
  if host.head? = some '[' then
    match cutAtLast ']' host with
    | none => some "missing ']' in host"
    | some (inside, colonPort) =>
      if !validOptionalPort colonPort then some "invalid port after host"
      else
        match cutAt "%25".data inside with
        | some (host1, zoneRest) =>
          (unescapeErr Encoding.encodeHost host1).orElse fun _ =>
          (unescapeErr Encoding.encodeZone ("%25".data ++ zoneRest)).orElse fun _ =>
          unescapeErr Encoding.encodeHost (']' :: colonPort)
        | none => unescapeErr Encoding.encodeHost host
  else
    match cutAtLast ':' host with
    | some (_, port) =>
      if !validOptionalPort (':' :: port) then some "invalid port after host"
      else unescapeErr Encoding.encodeHost host
    | none => unescapeErr Encoding.encodeHost host

/-- The error of `parseAuthority(authority)`, `none` for nil. -/
def parseAuthorityErr (authority : List Char) : Option String :=
  match cutAtLast '@' authority with
  | none => parseHostErr authority
  | some (userinfo, host) =>
    (parseHostErr host).orElse fun _ =>
    if !validUserinfo userinfo then some "net/url: invalid userinfo"
    else
      match cutAt [':'] userinfo with
      | none => unescapeErr Encoding.encodeUserPassword userinfo
      | some (username, password) =>
        (unescapeErr Encoding.encodeUserPassword username).orElse fun _ =>
        unescapeErr Encoding.encodeUserPassword password

/-- The error of `parse(rawURL, false)`, `none` for nil. -/
def parseErr (rawURL : List Char) : Option String :=
  if stringContainsCTLByte rawURL then some "net/url: invalid control character in URL"
  else if rawURL = ['*'] then none
  else
    match getScheme rawURL with
    | .error e => some e
    | .ok (scheme, rest0) =>
      let rest :=
        if rest0.getLast? = some '?' ∧ rest0.count '?' = 1 then rest0.dropLast
        else match cutAt ['?'] rest0 with
          | some (before, _) => before
          | none => rest0
      let segment :=
        match cutAt ['/'] rest with
        | some (before, _) => before
        | none => rest
      if rest.head? ≠ some '/' ∧ scheme ≠ [] then none
      else if rest.head? ≠ some '/' ∧ segment.contains ':' then
        some "first path segment in URL cannot contain colon"
      else if (scheme ≠ [] ∨ ¬ "///".data.isPrefixOf rest) ∧ "//".data.isPrefixOf rest then
        let afterSlashes := rest.drop 2
        match cutAt ['/'] afterSlashes with
        | some (authority, path) =>
          (parseAuthorityErr authority).orElse fun _ =>
          unescapeErr Encoding.encodePath ('/' :: path)
        | none =>
          (parseAuthorityErr afterSlashes).orElse fun _ =>
          unescapeErr Encoding.encodePath []
      else unescapeErr Encoding.encodePath rest

/-- The error of `url.Parse(rawURL)`, `none` for nil; the payload is the cause
held by the returned `*url.Error`, without the quoted text it names. -/
def urlParse (rawURL : String) : Option String :=
  match cutAt ['#'] rawURL.data with
  | none => parseErr rawURL.data
  | some (u, frag) =>
    (parseErr u).orElse fun _ =>
    if frag = [] then none else unescapeErr Encoding.encodeFragment frag

/-! ### text/template -/

/-- The helper functions that `GetTemplate` registers on an inline template. -/
inductive Helper where
  | json
  | jsonCompact
  deriving DecidableEq, Repr

/-- The nodes of a parsed template, on the modelled fragment: literal text, a field
chain applied to the dot (`.A.B`; the empty chain is the dot itself) and a call
of a registered helper on the dot. -/
inductive Node where
  | text (s : String)
  | field (chain : List String)
  | call (h : Helper)
  deriving DecidableEq, Repr

/-- A parsed template: its nodes in source order. -/
abbrev Template := List Node

/-- A blank inside an action. -/
def isBlank (c : Char) : Bool :=
  c = ' ' || c = '\t'

/-- The text without its leading and trailing blanks. -/
def trimBlanks (s : List Char) : List Char :=
  ((s.dropWhile isBlank).reverse.dropWhile isBlank).reverse

/-- A letter, digit or underscore. -/
def isAlphaNumeric (c : Char) : Bool :=
  isLetter c || isDigit c || c = '_'

/-- An identifier: letters, digits and underscores, not starting with a digit. -/
def isIdentifier : List Char → Bool
  | [] => false
  | c :: cs => (isLetter c || c = '_') && cs.all isAlphaNumeric

/-- The pieces of `s` between its dots. -/
def splitDots : List Char → List (List Char)
  | [] => [[]]
  | c :: cs =>
    match splitDots cs with
    | [] => [[]]
    | piece :: pieces => if c = '.' then [] :: piece :: pieces else (c :: piece) :: pieces

/-- The keywords and predefined functions of the template language; an action
starting with one of them lies outside the modelled fragment. -/
def reservedWords : List String :=
  ["block", "break", "continue", "define", "else", "end", "if", "range", "nil",
   "template", "with", "true", "false", "and", "call", "html", "index", "slice", "js",
   "len", "not", "or", "print", "printf", "println", "urlquery", "eq", "ge", "gt", "le",
   "lt", "ne"]

/-- The node of the action with the given text between the delimiters. With
`helpers` the names `json` and `jsonCompact` are defined; any other name that is
not reserved is an undefined function. -/
def parseAction (helpers : Bool) (body : List Char) : Except String Node :=
  let b := trimBlanks body
  if b = ['.'] then .ok (Node.field [])
  else if b.head? = some '.' then
    if (splitDots (b.drop 1)).all isIdentifier then
      .ok (Node.field ((splitDots (b.drop 1)).map String.mk))
    else .error "template: body: action outside the modelled fragment"
  else
    let name := b.takeWhile isAlphaNumeric
    let args := b.dropWhile isAlphaNumeric
    if isIdentifier name ∧ args.head? ≠ some '.' ∧ trimBlanks args = ['.'] then
      if helpers ∧ name = "json".data then .ok (Node.call Helper.json)
      else if helpers ∧ name = "jsonCompact".data then .ok (Node.call Helper.jsonCompact)
      else if reservedWords.contains (String.mk name) then
        .error "template: body: action outside the modelled fragment"
      else .error ("template: body:1: function \"" ++ String.mk name ++ "\" not defined")
    else .error "template: body: action outside the modelled fragment"

/-- The nodes of the source `s`, one action per unit of `fuel`: the text up to the
next left delimiter is a text node, the action runs to the next right delimiter,
and a left delimiter without a right delimiter after it is an unclosed action. -/
def parseNodes (helpers : Bool) : Nat → List Char → Except String Template
  | 0, _ => .error "template: body: action outside the modelled fragment"
  | fuel + 1, s =>
    match cutAt "\x7b\x7b".data s with
    | none => .ok (if s = [] then [] else [Node.text (String.mk s)])
    | some (before, rest) =>
      match cutAt "\x7d\x7d".data rest with
      | none => .error "template: body:1: unclosed action"
      | some (body, after) =>
        match parseAction helpers body, parseNodes helpers fuel after with
        | .ok node, .ok nodes =>
          .ok ((if before = [] then [] else [Node.text (String.mk before)]) ++ node :: nodes)
        | .error e, _ => .error e
        | _, .error e => .error e

/-- The call `template.New("body").Parse(text)`, after `.Funcs(...)` registering
the two helpers when `helpers` is true. -/
def templateParse (helpers : Bool) (text : String) : Except String Template :=
  parseNodes helpers (text.data.length + 1) text.data

/-- The text one node writes when the template is executed with nil data: a field
of the nil dot has no value, and the helpers encode nil as JSON `null`, `json`
with the encoder's final newline. -/
def executeNode : Node → String
  | Node.text s => s
  | Node.field _ => "<no value>"
  | Node.call Helper.json => "null\n"
  | Node.call Helper.jsonCompact => "null"

/-- The call `t.Execute(buf, nil)` followed by `buf.String()`. -/
def templateExecute (t : Template) : Except String String :=
  .ok (String.join (t.map executeNode))

/-- The standard library with a filesystem `files` listing the readable paths and
their contents; reading any other path fails. -/
def envWith (files : List (String × String)) : Env Template :=
  { parse := templateParse
    execute := templateExecute
    urlParse := urlParse
    readFile := fun p =>
      match files.lookup p with
      | some data => .ok data
      | none => .error ("open " ++ p ++ ": no such file or directory") }

/-- The standard library with an empty filesystem. -/
def env : Env Template :=
  envWith []

end Go

/-! ## The specification's reading of `Config.Validate` -/

/-- The first error of a list of check results, `none` when no check failed. -/
def firstError : List (Option GoError) → Option GoError
  | [] => none
  | some e :: _ => some e
  | none :: rest => firstError rest

/-- The checks of `Config.Validate` in the order the specification lists them:
endpoint missing, url missing, url template fails to parse, url template fails
to render with no data, static url is not a valid URL, both alert fields set,
alert-template-file relative, both row fields set, row-template-file relative.
Each entry is the error of its check when the configuration violates it and
`none` when it does not. -/
def Config.checks {T : Type} (env : Env T) (c : Config) : List (Option GoError) :=
  [ if c.Endpoint = "" then some (GoError.new "must specify endpoint name") else none,
    if c.URLTemplate = "" then some (GoError.new "must specify url") else none,
    match env.parse true c.URLTemplate with
    | .error e =>
      some (GoError.wrapf (GoError.wrap (GoError.ext e) "failed to parse template")
        "invalid URL template syntax %q" c.URLTemplate)
    | .ok _ => none,
    match env.parse true c.URLTemplate with
    | .error _ => none
    | .ok t =>
      match env.execute t with
      | .error e =>
        some (GoError.wrapf (GoError.ext e) "invalid URL template syntax %q" c.URLTemplate)
      | .ok _ => none,
    match env.parse true c.URLTemplate with
    | .error _ => none
    | .ok t =>
      match env.execute t with
      | .error _ => none
      | .ok out =>
        if c.URLTemplate = out then
          (env.urlParse out).map (fun e => GoError.wrapf (GoError.ext e) "invalid URL %q" out)
        else none,
    if c.AlertTemplate ≠ "" ∧ c.AlertTemplateFile ≠ "" then
      some (GoError.new "must specify only one of alert-template and alert-template-file")
    else none,
    if c.AlertTemplateFile ≠ "" ∧ pathIsAbs c.AlertTemplateFile = false then
      some (GoError.new "must use an absolute path for alert-template-file")
    else none,
    if c.RowTemplate ≠ "" ∧ c.RowTemplateFile ≠ "" then
      some (GoError.new "must specify only one of row-template and row-template-file")
    else none,
    if c.RowTemplateFile ≠ "" ∧ pathIsAbs c.RowTemplateFile = false then
      some (GoError.new "must use an absolute path for row-template-file")
    else none ]

/-- A configuration passes the endpoint and url checks: the endpoint and the url
are set, the url parses as a template and renders with no data, and when the
rendered text is the url itself it parses as a URL. -/
def Config.PassesURLChecks {T : Type} (env : Env T) (c : Config) : Prop :=
  c.Endpoint ≠ "" ∧ c.URLTemplate ≠ "" ∧
    ∃ t out, env.parse true c.URLTemplate = .ok t ∧ env.execute t = .ok out ∧
      (out = c.URLTemplate → env.urlParse out = none)

/-- The constraint on the alert pair: not both set, and the file empty or absolute. -/
def Config.AlertFieldsOK (c : Config) : Prop :=
  ¬ (c.AlertTemplate ≠ "" ∧ c.AlertTemplateFile ≠ "") ∧
    (c.AlertTemplateFile = "" ∨ pathIsAbs c.AlertTemplateFile = true)

/-- The constraint on the row pair: not both set, and the file empty or absolute. -/
def Config.RowFieldsOK (c : Config) : Prop :=
  ¬ (c.RowTemplate ≠ "" ∧ c.RowTemplateFile ≠ "") ∧
    (c.RowTemplateFile = "" ∨ pathIsAbs c.RowTemplateFile = true)

instance (c : Config) : Decidable c.AlertFieldsOK := by
  unfold Config.AlertFieldsOK
  exact inferInstance

instance (c : Config) : Decidable c.RowFieldsOK := by
  unfold Config.RowFieldsOK
  exact inferInstance

/-! ## The helper functions registered on inline templates -/

/-- The package `encoding/json`, as far as the helpers call it.
* `encode v` is `json.NewEncoder(&buf).Encode(v)` on an empty buffer: the bytes
  written to the buffer, or the error, in which case nothing is written;
* `compact src` is `json.Compact(&dst, src)` on an empty buffer: the bytes
  appended to the buffer, or the error, in which case nothing is appended. -/
structure JsonPkg (V : Type) where
  encode : V → Except String String
  compact : String → Except String String

/-- The helper `json` of the `template.FuncMap` in `GetTemplate`: the buffer after
`Encode`, whose error is dropped. -/
def FuncMap.json {V : Type} (pkg : JsonPkg V) (v : V) : String :=
  match pkg.encode v with
  | .ok written => written
  | .error _ => ""

/-- The helper `jsonCompact` of the `template.FuncMap` in `GetTemplate`: the second
buffer after `Encode` into the first one and `Compact` of its bytes into the
second, both errors dropped. -/
def FuncMap.jsonCompact {V : Type} (pkg : JsonPkg V) (v : V) : String :=
  let tmpBuffer :=
    match pkg.encode v with
    | .ok written => written
    | .error _ => ""
  match pkg.compact tmpBuffer with
  | .ok appended => appended
  | .error _ => ""

namespace Go

/-! ### encoding/json -/

/-- A key the encoder writes between quotes as it is: ASCII letters and digits. -/
def isPlainKey (k : String) : Bool :=
  k.data.all (fun c => isLetter c || isDigit c)

/-- The map keys of the modelled fragment. -/
abbrev PlainKey := { k : String // isPlainKey k = true }

/-- The Go values of the modelled fragment: nil, a non-negative integer, a
`map[string]int` with plain keys and non-negative values, given by the
assignments that built it, and a slice holding one value. -/
inductive JsonValue where
  | null
  | number (n : Nat)
  | object (fields : List (PlainKey × Nat))
  | slice (item : JsonValue)
  deriving DecidableEq

/-- The map `{"a": 1}`. -/
def mapA1 : JsonValue :=
  JsonValue.object [(⟨"a", rfl⟩, 1)]

/-- The value `null` inside `depth` slices, each holding the next one. -/
def nestedSlices : Nat → JsonValue
  | 0 => JsonValue.null
  | depth + 1 => JsonValue.slice (nestedSlices depth)

/-- The byte order of two strings. -/
def bytesLt : List Char → List Char → Bool
  | _, [] => false
  | [], _ :: _ => true
  | a :: as, b :: bs => a.toNat < b.toNat || (a = b && bytesLt as bs)

/-- The entry `p` put at its place in a list of entries in key order; an entry
already there under the same key, assigned later, is kept. -/
def insertField (p : PlainKey × Nat) : List (PlainKey × Nat) → List (PlainKey × Nat)
  | [] => [p]
  | q :: rest =>
    if p.1.val = q.1.val then q :: rest
    else if bytesLt p.1.val.data q.1.val.data then p :: q :: rest
    else q :: insertField p rest

/-- The entries of the map in key order, as the encoder writes them. -/
def sortFields : List (PlainKey × Nat) → List (PlainKey × Nat)
  | [] => []
  | p :: rest => insertField p (sortFields rest)

/-- The entries of an object, each as `"key":value`, separated by commas. -/
def marshalFields : List (PlainKey × Nat) → String
  | [] => ""
  | [p] => "\"" ++ p.1.val ++ "\":" ++ Nat.repr p.2
  | p :: q :: rest =>
    "\"" ++ p.1.val ++ "\":" ++ Nat.repr p.2 ++ "," ++ marshalFields (q :: rest)

/-- The bytes of the JSON encoding of a value (`json.Marshal`). The encoder sets no
bound on the nesting of slices. -/
def marshalChars : JsonValue → List Char
  | JsonValue.null => "null".data
  | JsonValue.number n => (Nat.repr n).data
  | JsonValue.object fields => ("\x7b" ++ marshalFields (sortFields fields) ++ "\x7d").data
  | JsonValue.slice item => '[' :: marshalChars item ++ [']']

/-- The JSON encoding of a value. -/
def marshal (v : JsonValue) : String :=
  String.mk (marshalChars v)

/-- The method `Encoder.Encode`: the encoding followed by a newline; every value of
the modelled fragment has an encoding. -/
def jsonEncode (v : JsonValue) : Except String String :=
  .ok (marshal v ++ "\n")

/-- The constant `maxNestingDepth` of the scanner: the number of objects and arrays
that may be open at once. -/
def maxNestingDepth : Nat := 10000

/-- The tokens of a JSON text; a string or number holds its bytes as written. -/
inductive Token where
  | beginObject
  | endObject
  | beginArray
  | endArray
  | colon
  | comma
  | string (chars : List Char)
  | number (chars : List Char)
  | null
  | trueWord
  | falseWord
  deriving DecidableEq, Repr

/-- The state of the scanner between two bytes: outside a token, in a string, after
a backslash in a string, in the four hexadecimal digits of a `\u` escape with
`left` of them to read, in a number, in a word. -/
inductive ScanState where
  | betweenTokens
  | inString (chars : List Char)
  | inEscape (chars : List Char)
  | inUnicode (chars : List Char) (left : Nat)
  | inNumber (chars : List Char)
  | inWord (letters : List Char)
  deriving DecidableEq, Repr

/-- The white space of JSON. -/
def isSpace (c : Char) : Bool :=
  c = ' ' || c = '\t' || c = '\r' || c = '\n'

/-- An exponent, or nothing: `e` or `E`, an optional sign, digits. -/
def validExponent : List Char → Bool
  | [] => true
  | c :: rest =>
    (c = 'e' || c = 'E') &&
      (match rest with
        | [] => false
        | s :: digits =>
          if s = '+' || s = '-' then digits ≠ [] && digits.all isDigit
          else (s :: digits).all isDigit)

/-- A fraction, or nothing, then an exponent, or nothing: a point and digits. -/
def validFraction : List Char → Bool
  | [] => true
  | c :: rest =>
    if c = '.' then (rest.takeWhile isDigit) ≠ [] && validExponent (rest.dropWhile isDigit)
    else validExponent (c :: rest)

/-- The digits of the integer part, then the fraction and exponent: `0`, or digits
not starting with `0`. -/
def validInteger : List Char → Bool
  | [] => false
  | c :: rest =>
    if c = '0' then validFraction rest
    else isDigit c && validFraction (rest.dropWhile isDigit)

/-- A JSON number: an optional minus sign, the integer part, an optional fraction
and an optional exponent. -/
def validNumber : List Char → Bool
  | [] => false
  | c :: rest => if c = '-' then validInteger rest else validInteger (c :: rest)

/-- The token of the bytes of a number. -/
def numberToken (chars : List Char) : Option Token :=
  if validNumber chars then some (Token.number chars) else none

/-- The token of a word: `null`, `true` or `false`. -/
def wordToken (letters : List Char) : Option Token :=
  if letters = "null".data then some Token.null
  else if letters = "true".data then some Token.trueWord
  else if letters = "false".data then some Token.falseWord
  else none

/-- A byte of a number after its first one. -/
def isNumberChar (c : Char) : Bool :=
  isDigit c || c = '+' || c = '-' || c = '.' || c = 'e' || c = 'E'

/-- One byte read outside a token, with `depth` objects and arrays open: the new
depth, the new state and the token read, if any. Opening an object or array
beyond `maxNestingDepth` is an error, as is a byte that starts no token. -/
def stepBetween (depth : Nat) (c : Char) : Option (Nat × ScanState × List Token) :=
  if isSpace c then some (depth, ScanState.betweenTokens, [])
  else if c = Char.ofNat 123 then
    if maxNestingDepth < depth + 1 then none
    else some (depth + 1, ScanState.betweenTokens, [Token.beginObject])
  else if c = '[' then
    if maxNestingDepth < depth + 1 then none
    else some (depth + 1, ScanState.betweenTokens, [Token.beginArray])
  else if c = Char.ofNat 125 then some (depth - 1, ScanState.betweenTokens, [Token.endObject])
  else if c = ']' then some (depth - 1, ScanState.betweenTokens, [Token.endArray])
  else if c = ':' then some (depth, ScanState.betweenTokens, [Token.colon])
  else if c = ',' then some (depth, ScanState.betweenTokens, [Token.comma])
  else if c = '"' then some (depth, ScanState.inString [], [])
  else if isDigit c || c = '-' then some (depth, ScanState.inNumber [c], [])
  else if isLetter c then some (depth, ScanState.inWord [c], [])
  else none

/-- One byte read in any state. A number or word ends at the first byte that
cannot continue it, which is then read as a byte outside a token. -/
def step (depth : Nat) (state : ScanState) (c : Char) :
    Option (Nat × ScanState × List Token) :=
  match state with
  | ScanState.betweenTokens => stepBetween depth c
  | ScanState.inString chars =>
    if c = '"' then some (depth, ScanState.betweenTokens, [Token.string chars])
    else if c = '\\' then some (depth, ScanState.inEscape (chars ++ [c]), [])
    else if c.toNat < 32 then none
    else some (depth, ScanState.inString (chars ++ [c]), [])
  | ScanState.inEscape chars =>
    if c = 'u' then some (depth, ScanState.inUnicode (chars ++ [c]) 4, [])
    else if c = '"' || c = '\\' || c = '/' || c = 'b' || c = 'f' || c = 'n' || c = 'r'
        || c = 't' then
      some (depth, ScanState.inString (chars ++ [c]), [])
    else none
  | ScanState.inUnicode chars left =>
    if ishex c then
      if left ≤ 1 then some (depth, ScanState.inString (chars ++ [c]), [])
      else some (depth, ScanState.inUnicode (chars ++ [c]) (left - 1), [])
    else none
  | ScanState.inNumber chars =>
    if isNumberChar c then some (depth, ScanState.inNumber (chars ++ [c]), [])
    else
      match numberToken chars, stepBetween depth c with
      | some t, some (depth2, state2, tokens) => some (depth2, state2, t :: tokens)
      | _, _ => none
  | ScanState.inWord letters =>
    if isLetter c then some (depth, ScanState.inWord (letters ++ [c]), [])
    else
      match wordToken letters, stepBetween depth c with
      | some t, some (depth2, state2, tokens) => some (depth2, state2, t :: tokens)
      | _, _ => none

/-- The tokens of a JSON text, white space between them dropped; `none` when a
byte is an error. -/
def scan : Nat → ScanState → List Char → Option (List Token)
  | _, ScanState.betweenTokens, [] => some []
  | _, ScanState.inNumber chars, [] => (numberToken chars).map (fun t => [t])
  | _, ScanState.inWord letters, [] => (wordToken letters).map (fun t => [t])
  | _, _, [] => none
  | depth, state, c :: cs =>
    match step depth state c with
    | none => none
    | some (depth2, state2, tokens) => (scan depth2 state2 cs).map (tokens ++ ·)

/-- An open object or array. -/
inductive Frame where
  | object
  | array
  deriving DecidableEq, Repr

/-- What the scanner expects next: a value; a value or the end of the array just
opened; a key or the end of the object just opened; a key; the colon after a
key; a comma or a closing token after a value, or the end of the text. -/
inductive Expect where
  | value
  | valueOrEndArray
  | keyOrEndObject
  | key
  | colon
  | afterValue
  deriving DecidableEq, Repr

/-- A token that is a value by itself. -/
def isScalar : Token → Bool
  | Token.string _ => true
  | Token.number _ => true
  | Token.null => true
  | Token.trueWord => true
  | Token.falseWord => true
  | _ => false

/-- A token that is a string. -/
def isString : Token → Bool
  | Token.string _ => true
  | _ => false

/-- The tokens form one JSON value: `opened` lists the objects and arrays open, the
innermost first. -/
def validTokens : List Frame → Expect → List Token → Bool
  | opened, Expect.afterValue, [] => opened = []
  | _, _, [] => false
  | opened, expect, t :: ts =>
    if (expect = Expect.value ∨ expect = Expect.valueOrEndArray) ∧ isScalar t then
      validTokens opened Expect.afterValue ts
    else if (expect = Expect.value ∨ expect = Expect.valueOrEndArray) ∧ t = Token.beginObject then
      validTokens (Frame.object :: opened) Expect.keyOrEndObject ts
    else if (expect = Expect.value ∨ expect = Expect.valueOrEndArray) ∧ t = Token.beginArray then
      validTokens (Frame.array :: opened) Expect.valueOrEndArray ts
    else if (expect = Expect.valueOrEndArray ∨ expect = Expect.afterValue) ∧ t = Token.endArray
        ∧ opened.head? = some Frame.array then
      validTokens opened.tail Expect.afterValue ts
    else if (expect = Expect.keyOrEndObject ∨ expect = Expect.afterValue) ∧ t = Token.endObject
        ∧ opened.head? = some Frame.object then
      validTokens opened.tail Expect.afterValue ts
    else if (expect = Expect.keyOrEndObject ∨ expect = Expect.key) ∧ isString t then
      validTokens opened Expect.colon ts
    else if expect = Expect.colon ∧ t = Token.colon then
      validTokens opened Expect.value ts
    else if expect = Expect.afterValue ∧ t = Token.comma ∧ opened.head? = some Frame.object then
      validTokens opened Expect.key ts
    else if expect = Expect.afterValue ∧ t = Token.comma ∧ opened.head? = some Frame.array then
      validTokens opened Expect.value ts
    else false

/-- The text of a token. -/
def tokenText : Token → String
  | Token.beginObject => "\x7b"
  | Token.endObject => "\x7d"
  | Token.beginArray => "["
  | Token.endArray => "]"
  | Token.colon => ":"
  | Token.comma => ","
  | Token.string chars => "\"" ++ String.mk chars ++ "\""
  | Token.number chars => String.mk chars
  | Token.null => "null"
  | Token.trueWord => "true"
  | Token.falseWord => "false"

/-- The function `json.Compact`: the text of the tokens without the white space
between them, or an error when the source is not one JSON value or opens more
than `maxNestingDepth` objects and arrays at once. -/
def jsonCompact (src : String) : Except String String :=
  match scan 0 ScanState.betweenTokens src.data with
  | none => .error "json: invalid JSON text or exceeded max depth"
  | some tokens =>
    if validTokens [] Expect.value tokens then .ok (String.join (tokens.map tokenText))
    else .error "json: invalid JSON text"

/-- The package `encoding/json`: the encoder on the modelled fragment of values,
and `Compact`. -/
def jsonPkg : JsonPkg JsonValue :=
  { encode := jsonEncode, compact := jsonCompact }

end Go

/-! ## Lemmas on `GetTemplate` and `Config.Validate` -/

theorem GetTemplate_inline {T : Type} (env : Env T) (tmpl tpath : String) (h : tmpl ≠ "") :
    GetTemplate env tmpl tpath =
      match env.parse true tmpl with
      | .ok t => (some t, none)
      | .error e => (none, some (GoError.wrap (GoError.ext e) "failed to parse template")) := by
  unfold GetTemplate
  rw [if_pos h]
  cases env.parse true tmpl <;> rfl

theorem GetTemplate_empty {T : Type} (env : Env T) : GetTemplate env "" "" = (none, none) := by
  simp [GetTemplate]

/-- The checks of `Validate` after the url checks (lines 77 to 93). -/
theorem Validate_of_rendered {T : Type} (env : Env T) (c : Config) (t : T) (out : String)
    (hE : c.Endpoint ≠ "") (hU : c.URLTemplate ≠ "")
    (hp : env.parse true c.URLTemplate = .ok t) (hx : env.execute t = .ok out) :
    c.Validate env =
      match (if c.URLTemplate = out then env.urlParse out else none) with
      | some err => some (GoError.wrapf (GoError.ext err) "invalid URL %q" out)
      | none =>
        if c.AlertTemplate ≠ "" ∧ c.AlertTemplateFile ≠ "" then
          some (GoError.new "must specify only one of alert-template and alert-template-file")
        else if c.AlertTemplateFile ≠ "" ∧ pathIsAbs c.AlertTemplateFile = false then
          some (GoError.new "must use an absolute path for alert-template-file")
        else if c.RowTemplate ≠ "" ∧ c.RowTemplateFile ≠ "" then
          some (GoError.new "must specify only one of row-template and row-template-file")
        else if c.RowTemplateFile ≠ "" ∧ pathIsAbs c.RowTemplateFile = false then
          some (GoError.new "must use an absolute path for row-template-file")
        else none := by
  unfold Config.Validate
  rw [if_neg hE, if_neg hU, GetTemplate_inline env _ _ hU, hp]
  simp only [executeTemplate, hx]
  cases (if c.URLTemplate = out then env.urlParse out else none) <;> simp

theorem Validate_of_parse_error {T : Type} (env : Env T) (c : Config) (e : String)
    (hE : c.Endpoint ≠ "") (hU : c.URLTemplate ≠ "")
    (hp : env.parse true c.URLTemplate = .error e) :
    c.Validate env =
      some (GoError.wrapf (GoError.wrap (GoError.ext e) "failed to parse template")
        "invalid URL template syntax %q" c.URLTemplate) := by
  unfold Config.Validate
  rw [if_neg hE, if_neg hU, GetTemplate_inline env _ _ hU, hp]

theorem Validate_of_execute_error {T : Type} (env : Env T) (c : Config) (t : T) (e : String)
    (hE : c.Endpoint ≠ "") (hU : c.URLTemplate ≠ "")
    (hp : env.parse true c.URLTemplate = .ok t) (hx : env.execute t = .error e) :
    c.Validate env =
      some (GoError.wrapf (GoError.ext e) "invalid URL template syntax %q" c.URLTemplate) := by
  unfold Config.Validate
  rw [if_neg hE, if_neg hU, GetTemplate_inline env _ _ hU, hp]
  simp only [executeTemplate, hx]

theorem Validate_of_endpoint_empty {T : Type} (env : Env T) (c : Config) (hE : c.Endpoint = "") :
    c.Validate env = some (GoError.new "must specify endpoint name") := by
  unfold Config.Validate
  rw [if_pos hE]

theorem Validate_of_url_empty {T : Type} (env : Env T) (c : Config) (hE : c.Endpoint ≠ "")
    (hU : c.URLTemplate = "") : c.Validate env = some (GoError.new "must specify url") := by
  unfold Config.Validate
  rw [if_neg hE, if_pos hU]

/-- The branch of `Validate` that would call `Execute` on a nil template is never
taken: the url is non-empty there, so `GetTemplate` parsed it. -/
theorem Validate_ne_nilTemplate {T : Type} (env : Env T) (c : Config) :
    c.Validate env ≠ some GoError.nilTemplate := by
  by_cases hE : c.Endpoint = ""
  · rw [Validate_of_endpoint_empty env c hE]; simp
  by_cases hU : c.URLTemplate = ""
  · rw [Validate_of_url_empty env c hE hU]; simp
  cases hp : env.parse true c.URLTemplate with
  | error e => rw [Validate_of_parse_error env c e hE hU hp]; simp
  | ok t =>
    cases hx : env.execute t with
    | error e => rw [Validate_of_execute_error env c t e hE hU hp hx]; simp
    | ok out =>
      rw [Validate_of_rendered env c t out hE hU hp hx]
      cases (if c.URLTemplate = out then env.urlParse out else none) with
      | some err => simp
      | none =>
        simp only []
        split_ifs <;> simp

theorem Validate_eq_firstError {T : Type} (env : Env T) (c : Config) :
    c.Validate env = firstError (c.checks env) := by
  by_cases hE : c.Endpoint = ""
  · rw [Validate_of_endpoint_empty env c hE]
    simp [Config.checks, firstError, hE]
  by_cases hU : c.URLTemplate = ""
  · rw [Validate_of_url_empty env c hE hU]
    simp [Config.checks, firstError, hE, hU]
  cases hp : env.parse true c.URLTemplate with
  | error e =>
    rw [Validate_of_parse_error env c e hE hU hp]
    simp [Config.checks, firstError, hE, hU, hp]
  | ok t =>
    cases hx : env.execute t with
    | error e =>
      rw [Validate_of_execute_error env c t e hE hU hp hx]
      simp [Config.checks, firstError, hE, hU, hp, hx]
    | ok out =>
      rw [Validate_of_rendered env c t out hE hU hp hx]
      simp only [Config.checks, hp, hx, if_neg hE, if_neg hU, firstError]
      by_cases ho : c.URLTemplate = out
      · simp only [if_pos ho]
        cases hu : env.urlParse out with
        | some err => simp [firstError]
        | none =>
          simp only [Option.map_none', firstError]
          by_cases h1 : c.AlertTemplate ≠ "" ∧ c.AlertTemplateFile ≠ ""
          · simp only [if_pos h1, firstError]
          by_cases h2 : c.AlertTemplateFile ≠ "" ∧ pathIsAbs c.AlertTemplateFile = false
          · simp only [if_neg h1, if_pos h2, firstError]
          by_cases h3 : c.RowTemplate ≠ "" ∧ c.RowTemplateFile ≠ ""
          · simp only [if_neg h1, if_neg h2, if_pos h3, firstError]
          by_cases h4 : c.RowTemplateFile ≠ "" ∧ pathIsAbs c.RowTemplateFile = false
          · simp only [if_neg h1, if_neg h2, if_neg h3, if_pos h4, firstError]
          · simp only [if_neg h1, if_neg h2, if_neg h3, if_neg h4, firstError]
      · simp only [if_neg ho, firstError]
        by_cases h1 : c.AlertTemplate ≠ "" ∧ c.AlertTemplateFile ≠ ""
        · simp only [if_pos h1, firstError]
        by_cases h2 : c.AlertTemplateFile ≠ "" ∧ pathIsAbs c.AlertTemplateFile = false
        · simp only [if_neg h1, if_pos h2, firstError]
        by_cases h3 : c.RowTemplate ≠ "" ∧ c.RowTemplateFile ≠ ""
        · simp only [if_neg h1, if_neg h2, if_pos h3, firstError]
        by_cases h4 : c.RowTemplateFile ≠ "" ∧ pathIsAbs c.RowTemplateFile = false
        · simp only [if_neg h1, if_neg h2, if_neg h3, if_pos h4, firstError]
        · simp only [if_neg h1, if_neg h2, if_neg h3, if_neg h4, firstError]

theorem Validate_tail_none_iff (c : Config) :
    (if c.AlertTemplate ≠ "" ∧ c.AlertTemplateFile ≠ "" then
        some (GoError.new "must specify only one of alert-template and alert-template-file")
      else if c.AlertTemplateFile ≠ "" ∧ pathIsAbs c.AlertTemplateFile = false then
        some (GoError.new "must use an absolute path for alert-template-file")
      else if c.RowTemplate ≠ "" ∧ c.RowTemplateFile ≠ "" then
        some (GoError.new "must specify only one of row-template and row-template-file")
      else if c.RowTemplateFile ≠ "" ∧ pathIsAbs c.RowTemplateFile = false then
        some (GoError.new "must use an absolute path for row-template-file")
      else none) = none ↔ c.AlertFieldsOK ∧ c.RowFieldsOK := by
  unfold Config.AlertFieldsOK Config.RowFieldsOK
  by_cases h1 : c.AlertTemplate ≠ "" ∧ c.AlertTemplateFile ≠ ""
  · simp only [if_pos h1]
    constructor
    · intro h; cases h
    · intro h; exact absurd h1 h.1.1
  by_cases h2 : c.AlertTemplateFile ≠ "" ∧ pathIsAbs c.AlertTemplateFile = false
  · simp only [if_neg h1, if_pos h2]
    constructor
    · intro h; cases h
    · intro h
      rcases h.1.2 with h | h
      · exact absurd h h2.1
      · rw [h2.2] at h; cases h
  by_cases h3 : c.RowTemplate ≠ "" ∧ c.RowTemplateFile ≠ ""
  · simp only [if_neg h1, if_neg h2, if_pos h3]
    constructor
    · intro h; cases h
    · intro h; exact absurd h3 h.2.1
  by_cases h4 : c.RowTemplateFile ≠ "" ∧ pathIsAbs c.RowTemplateFile = false
  · simp only [if_neg h1, if_neg h2, if_neg h3, if_pos h4]
    constructor
    · intro h; cases h
    · intro h
      rcases h.2.2 with h | h
      · exact absurd h h4.1
      · rw [h4.2] at h; cases h
  · simp only [if_neg h1, if_neg h2, if_neg h3, if_neg h4, true_iff]
    refine ⟨⟨h1, ?_⟩, ⟨h3, ?_⟩⟩
    · by_cases hf : c.AlertTemplateFile = ""
      · exact Or.inl hf
      · right
        cases hb : pathIsAbs c.AlertTemplateFile
        · exact absurd ⟨hf, hb⟩ h2
        · rfl
    · by_cases hf : c.RowTemplateFile = ""
      · exact Or.inl hf
      · right
        cases hb : pathIsAbs c.RowTemplateFile
        · exact absurd ⟨hf, hb⟩ h4
        · rfl

theorem Validate_eq_none_iff_aux {T : Type} (env : Env T) (c : Config) :
    c.Validate env = none ↔ c.PassesURLChecks env ∧ c.AlertFieldsOK ∧ c.RowFieldsOK := by
  by_cases hE : c.Endpoint = ""
  · rw [Validate_of_endpoint_empty env c hE]
    constructor
    · intro h; cases h
    · intro h; exact absurd hE h.1.1
  by_cases hU : c.URLTemplate = ""
  · rw [Validate_of_url_empty env c hE hU]
    constructor
    · intro h; cases h
    · intro h; exact absurd hU h.1.2.1
  cases hp : env.parse true c.URLTemplate with
  | error e =>
    rw [Validate_of_parse_error env c e hE hU hp]
    constructor
    · intro h; cases h
    · rintro ⟨⟨_, _, t, out, hp2, _⟩, _⟩
      rw [hp] at hp2; cases hp2
  | ok t =>
    cases hx : env.execute t with
    | error e =>
      rw [Validate_of_execute_error env c t e hE hU hp hx]
      constructor
      · intro h; cases h
      · rintro ⟨⟨_, _, t2, out, hp2, hx2, _⟩, _⟩
        rw [hp] at hp2
        cases hp2
        rw [hx] at hx2; cases hx2
    | ok out =>
      rw [Validate_of_rendered env c t out hE hU hp hx]
      by_cases ho : c.URLTemplate = out
      · simp only [if_pos ho]
        cases hu : env.urlParse out with
        | some err =>
          constructor
          · intro h; cases h
          · rintro ⟨⟨_, _, t2, out2, hp2, hx2, hurl⟩, _⟩
            rw [hp] at hp2
            cases hp2
            rw [hx] at hx2
            cases hx2
            rw [hurl ho.symm] at hu; cases hu
        | none =>
          simp only []
          rw [Validate_tail_none_iff]
          constructor
          · intro h
            exact ⟨⟨hE, hU, t, out, hp, hx, fun _ => hu⟩, h⟩
          · intro h; exact h.2
      · simp only [if_neg ho]
        rw [Validate_tail_none_iff]
        constructor
        · intro h
          exact ⟨⟨hE, hU, t, out, hp, hx, fun h2 => absurd h2.symm ho⟩, h⟩
        · intro h; exact h.2

theorem firstError_eq_none_iff (l : List (Option GoError)) :
    firstError l = none ↔ ∀ o ∈ l, o = none := by
  induction l with
  | nil => simp [firstError]
  | cons o rest ih =>
    cases o with
    | none => simp [firstError, ih]
    | some e => simp [firstError]

theorem firstError_of_first (l : List (Option GoError)) :
    ∀ (i : Nat) (e : GoError), l[i]? = some (some e) →
      (∀ j, j < i → l[j]? = some none) → firstError l = some e := by
  induction l with
  | nil => intro i e h; simp at h
  | cons o rest ih =>
    intro i e h hlt
    cases i with
    | zero =>
      simp only [List.getElem?_cons_zero, Option.some.injEq] at h
      rw [h]
      rfl
    | succ n =>
      have h0 := hlt 0 (Nat.succ_pos n)
      simp only [List.getElem?_cons_zero, Option.some.injEq] at h0
      rw [h0]
      simp only [firstError]
      apply ih n e
      · simpa using h
      · intro j hj
        have := hlt (j + 1) (Nat.succ_lt_succ hj)
        simpa using this

theorem Configs_Validate_eq_none_iff_aux {T : Type} (env : Env T) (cs : Configs) :
    Configs.Validate env cs = none ↔ ∀ c ∈ cs, c.Validate env = none := by
  induction cs with
  | nil => simp [Configs.Validate]
  | cons c rest ih =>
    cases hc : c.Validate env with
    | none => simp [Configs.Validate, hc, ih]
    | some e => simp [Configs.Validate, hc]

theorem Configs_Validate_first_aux {T : Type} (env : Env T) (pre : List Config) :
    ∀ (c : Config) (post : List Config) (e : GoError),
      (∀ x ∈ pre, x.Validate env = none) → c.Validate env = some e →
        Configs.Validate env (pre ++ c :: post) = some e := by
  induction pre with
  | nil =>
    intro c post e _ hc
    simp [Configs.Validate, hc]
  | cons x rest ih =>
    intro c post e hpre hc
    have hx : x.Validate env = none := hpre x (List.mem_cons_self x rest)
    simp only [List.cons_append, Configs.Validate, hx]
    exact ih c post e (fun y hy => hpre y (List.mem_cons_of_mem x hy)) hc

/-! ## Lemmas on maps and on `Configs.index` -/

theorem mapGet_mapSet {V : Type} (m : GoMap V) (k : String) (v : V) (k2 : String) :
    mapGet (mapSet m k v) k2 = if k = k2 then some v else mapGet m k2 := by
  induction m with
  | nil => simp [mapSet, mapGet]
  | cons p rest ih =>
    obtain ⟨k0, v0⟩ := p
    by_cases h0 : k0 = k
    · subst h0
      by_cases h2 : k0 = k2
      · simp [mapSet, mapGet, h2]
      · simp [mapSet, mapGet, h2]
    · by_cases h2 : k0 = k2
      · subst h2
        have hk : ¬ k = k0 := fun h => h0 h.symm
        simp [mapSet, mapGet, h0, hk]
      · simp [mapSet, mapGet, h0, h2, ih]

theorem mem_mapKeys_mapSet {V : Type} (m : GoMap V) (k : String) (v : V) (k2 : String) :
    k2 ∈ mapKeys (mapSet m k v) ↔ k2 = k ∨ k2 ∈ mapKeys m := by
  induction m with
  | nil => simp [mapSet, mapKeys]
  | cons p rest ih =>
    obtain ⟨k0, v0⟩ := p
    by_cases h0 : k0 = k
    · subst h0
      simp [mapSet, mapKeys]
    · simp only [mapKeys] at ih
      simp only [mapSet, if_neg h0, mapKeys, List.map_cons, List.mem_cons, ih]
      tauto

theorem nodup_mapKeys_mapSet {V : Type} (m : GoMap V) (k : String) (v : V)
    (h : (mapKeys m).Nodup) : (mapKeys (mapSet m k v)).Nodup := by
  induction m with
  | nil => simp [mapSet, mapKeys]
  | cons p rest ih =>
    obtain ⟨k0, v0⟩ := p
    simp only [mapKeys, List.map_cons, List.nodup_cons] at h
    by_cases h0 : k0 = k
    · subst h0
      simp only [mapSet, if_true, mapKeys, List.map_cons, List.nodup_cons]
      exact h
    · simp only [mapSet, if_neg h0, mapKeys, List.map_cons, List.nodup_cons]
      refine ⟨?_, ih h.2⟩
      intro hmem
      have := (mem_mapKeys_mapSet rest k v k0).1 hmem
      rcases this with h1 | h1
      · exact h0 h1
      · exact h.1 h1

theorem indexLoop_cons_ok {T E : Type} (env : Env T)
    (newEndpoint : Option T → List (String × String) → BasicAuth → Option T → Option T → E)
    (m : GoMap E) (c : Config) (cs : Configs) (a r u : Option T)
    (ha : c.getAlertTemplate env = (a, none)) (hr : c.getRowTemplate env = (r, none))
    (hu : c.getURLTemplate env = (u, none)) :
    Configs.indexLoop env newEndpoint m (c :: cs) =
      Configs.indexLoop env newEndpoint
        (mapSet m c.Endpoint (newEndpoint u c.Headers c.BasicAuth a r)) cs := by
  simp only [Configs.indexLoop, ha, hr, hu]

/-- When the loop succeeds on `c :: cs`, the three templates of `c` were resolved
without error and the loop went on from the map with the entry of `c`. -/
theorem indexLoop_cons_inv {T E : Type} (env : Env T)
    (newEndpoint : Option T → List (String × String) → BasicAuth → Option T → Option T → E)
    (m m2 : GoMap E) (c : Config) (cs : Configs)
    (h : Configs.indexLoop env newEndpoint m (c :: cs) = (some m2, none)) :
    (c.getAlertTemplate env).2 = none ∧ (c.getRowTemplate env).2 = none ∧
    (c.getURLTemplate env).2 = none ∧
    Configs.indexLoop env newEndpoint
      (mapSet m c.Endpoint (newEndpoint (c.getURLTemplate env).1 c.Headers c.BasicAuth
        (c.getAlertTemplate env).1 (c.getRowTemplate env).1)) cs = (some m2, none) := by
  rcases ha : c.getAlertTemplate env with ⟨a, _ | ea⟩
  · rcases hr : c.getRowTemplate env with ⟨r, _ | er⟩
    · rcases hu : c.getURLTemplate env with ⟨u, _ | eu⟩
      · rw [indexLoop_cons_ok env newEndpoint m c cs a r u ha hr hu] at h
        exact ⟨rfl, rfl, rfl, h⟩
      · simp [Configs.indexLoop, ha, hr, hu] at h
    · simp [Configs.indexLoop, ha, hr] at h
  · simp [Configs.indexLoop, ha] at h

theorem indexLoop_ok_aux {T E : Type} (env : Env T)
    (newEndpoint : Option T → List (String × String) → BasicAuth → Option T → Option T → E)
    (cs : Configs) :
    (∀ c ∈ cs, (c.getAlertTemplate env).2 = none ∧ (c.getRowTemplate env).2 = none ∧
      (c.getURLTemplate env).2 = none) →
    ∀ m : GoMap E, ∃ m2, Configs.indexLoop env newEndpoint m cs = (some m2, none) := by
  induction cs with
  | nil => intro _ m; exact ⟨m, rfl⟩
  | cons c rest ih =>
    intro h m
    obtain ⟨ha, hr, hu⟩ := h c (List.mem_cons_self c rest)
    rw [indexLoop_cons_ok env newEndpoint m c rest (c.getAlertTemplate env).1
      (c.getRowTemplate env).1 (c.getURLTemplate env).1
      (Prod.ext rfl ha) (Prod.ext rfl hr) (Prod.ext rfl hu)]
    exact ih (fun x hx => h x (List.mem_cons_of_mem c hx)) _

theorem GetTemplate_inline_err_none {T : Type} (env : Env T) (tmpl : String)
    (h : tmpl ≠ "" → ∃ t, env.parse true tmpl = .ok t) :
    (GetTemplate env tmpl "").2 = none := by
  by_cases he : tmpl = ""
  · rw [he, GetTemplate_empty]
  · obtain ⟨t, ht⟩ := h he
    rw [GetTemplate_inline env tmpl "" he, ht]

/-- The state of the loop of `Configs.index` when it succeeds: the keys are those
of the starting map and the endpoint names met, a name met holds the Endpoint of
the last Config carrying it, and the other entries are those of the starting
map. -/
theorem indexLoop_spec {T E : Type} (env : Env T)
    (newEndpoint : Option T → List (String × String) → BasicAuth → Option T → Option T → E)
    (cs : Configs) :
    ∀ (m m2 : GoMap E), Configs.indexLoop env newEndpoint m cs = (some m2, none) →
      (∀ k, k ∈ mapKeys m2 ↔ k ∈ mapKeys m ∨ ∃ c ∈ cs, c.Endpoint = k) ∧
      ((mapKeys m).Nodup → (mapKeys m2).Nodup) ∧
      (∀ k, (∀ c ∈ cs, c.Endpoint ≠ k) → mapGet m2 k = mapGet m k) ∧
      (∀ (pre : List Config) (c : Config) (post : List Config), cs = pre ++ c :: post →
        (∀ x ∈ post, x.Endpoint ≠ c.Endpoint) →
        mapGet m2 c.Endpoint = some (newEndpoint (c.getURLTemplate env).1 c.Headers c.BasicAuth
          (c.getAlertTemplate env).1 (c.getRowTemplate env).1)) := by
  induction cs with
  | nil =>
    intro m m2 h
    simp only [Configs.indexLoop, Prod.mk.injEq, Option.some.injEq, and_true] at h
    subst h
    refine ⟨fun k => by simp, fun h => h, fun _ _ => rfl, ?_⟩
    intro pre c post hcs
    simp at hcs
  | cons c0 rest ih =>
    intro m m2 h
    obtain ⟨_, _, _, hloop⟩ := indexLoop_cons_inv env newEndpoint m m2 c0 rest h
    obtain ⟨ih1, ih2, ih3, ih4⟩ := ih _ m2 hloop
    refine ⟨?_, ?_, ?_, ?_⟩
    · intro k
      rw [ih1 k, mem_mapKeys_mapSet]
      constructor
      · rintro ((h1 | h1) | ⟨c, hc, hk⟩)
        · exact Or.inr ⟨c0, List.mem_cons_self c0 rest, h1.symm⟩
        · exact Or.inl h1
        · exact Or.inr ⟨c, List.mem_cons_of_mem c0 hc, hk⟩
      · rintro (h1 | ⟨c, hc, hk⟩)
        · exact Or.inl (Or.inr h1)
        · rcases List.mem_cons.1 hc with h2 | h2
          · subst h2
            exact Or.inl (Or.inl hk.symm)
          · exact Or.inr ⟨c, h2, hk⟩
    · intro hnd
      exact ih2 (nodup_mapKeys_mapSet m _ _ hnd)
    · intro k hk
      rw [ih3 k (fun c hc => hk c (List.mem_cons_of_mem c0 hc)), mapGet_mapSet]
      rw [if_neg (hk c0 (List.mem_cons_self c0 rest))]
    · intro pre c post hcs hpost
      cases pre with
      | nil =>
        simp only [List.nil_append, List.cons.injEq] at hcs
        obtain ⟨hc, hrest⟩ := hcs
        subst hc
        subst hrest
        rw [ih3 c0.Endpoint hpost, mapGet_mapSet, if_pos rfl]
      | cons x pre2 =>
        simp only [List.cons_append, List.cons.injEq] at hcs
        exact ih4 pre2 c post hcs.2 hpost

theorem indexLoop_cons_alert_err {T E : Type} (env : Env T)
    (newEndpoint : Option T → List (String × String) → BasicAuth → Option T → Option T → E)
    (m : GoMap E) (c : Config) (cs : Configs) (e : GoError)
    (ha : (c.getAlertTemplate env).2 = some e) :
    Configs.indexLoop env newEndpoint m (c :: cs) =
      (none, some (GoError.wrapf e "failed to get alert-template for endpoint %q" c.Endpoint)) := by
  rcases h : c.getAlertTemplate env with ⟨a, ea⟩
  rw [h] at ha
  simp only at ha
  subst ha
  simp only [Configs.indexLoop, h]

theorem indexLoop_cons_row_err {T E : Type} (env : Env T)
    (newEndpoint : Option T → List (String × String) → BasicAuth → Option T → Option T → E)
    (m : GoMap E) (c : Config) (cs : Configs) (e : GoError)
    (ha : (c.getAlertTemplate env).2 = none) (hr : (c.getRowTemplate env).2 = some e) :
    Configs.indexLoop env newEndpoint m (c :: cs) =
      (none, some (GoError.wrapf e "failed to get row-template for endpoint %q" c.Endpoint)) := by
  rcases h : c.getAlertTemplate env with ⟨a, ea⟩
  rw [h] at ha
  simp only at ha
  subst ha
  rcases h2 : c.getRowTemplate env with ⟨r, er⟩
  rw [h2] at hr
  simp only at hr
  subst hr
  simp only [Configs.indexLoop, h, h2]

theorem indexLoop_cons_url_err {T E : Type} (env : Env T)
    (newEndpoint : Option T → List (String × String) → BasicAuth → Option T → Option T → E)
    (m : GoMap E) (c : Config) (cs : Configs) (e : GoError)
    (ha : (c.getAlertTemplate env).2 = none) (hr : (c.getRowTemplate env).2 = none)
    (hu : (c.getURLTemplate env).2 = some e) :
    Configs.indexLoop env newEndpoint m (c :: cs) =
      (none, some (GoError.wrapf e "failed to get url for endpoint %q" c.Endpoint)) := by
  rcases h : c.getAlertTemplate env with ⟨a, ea⟩
  rw [h] at ha
  simp only at ha
  subst ha
  rcases h2 : c.getRowTemplate env with ⟨r, er⟩
  rw [h2] at hr
  simp only at hr
  subst hr
  rcases h3 : c.getURLTemplate env with ⟨u, eu⟩
  rw [h3] at hu
  simp only at hu
  subst hu
  simp only [Configs.indexLoop, h, h2, h3]

/-- The loop passes over a prefix whose templates all resolve. -/
theorem indexLoop_append_ok {T E : Type} (env : Env T)
    (newEndpoint : Option T → List (String × String) → BasicAuth → Option T → Option T → E)
    (pre : List Config) :
    (∀ x ∈ pre, (x.getAlertTemplate env).2 = none ∧ (x.getRowTemplate env).2 = none ∧
      (x.getURLTemplate env).2 = none) →
    ∀ (m : GoMap E) (rest : Configs), ∃ m2,
      Configs.indexLoop env newEndpoint m (pre ++ rest) =
        Configs.indexLoop env newEndpoint m2 rest := by
  induction pre with
  | nil => intro _ m rest; exact ⟨m, rfl⟩
  | cons x xs ih =>
    intro h m rest
    obtain ⟨ha, hr, hu⟩ := h x (List.mem_cons_self x xs)
    rw [List.cons_append, indexLoop_cons_ok env newEndpoint m x (xs ++ rest)
      (x.getAlertTemplate env).1 (x.getRowTemplate env).1 (x.getURLTemplate env).1
      (Prod.ext rfl ha) (Prod.ext rfl hr) (Prod.ext rfl hu)]
    exact ih (fun y hy => h y (List.mem_cons_of_mem x hy)) _ rest

/-- The loop returns a map and no error, or the nil map and an error. -/
theorem indexLoop_result_shape {T E : Type} (env : Env T)
    (newEndpoint : Option T → List (String × String) → BasicAuth → Option T → Option T → E)
    (cs : Configs) :
    ∀ m : GoMap E, (∃ m2, Configs.indexLoop env newEndpoint m cs = (some m2, none)) ∨
      (∃ e, Configs.indexLoop env newEndpoint m cs = (none, some e)) := by
  induction cs with
  | nil => intro m; exact Or.inl ⟨m, rfl⟩
  | cons c rest ih =>
    intro m
    cases ha : (c.getAlertTemplate env).2 with
    | some e => exact Or.inr ⟨_, indexLoop_cons_alert_err env newEndpoint m c rest e ha⟩
    | none =>
      cases hr : (c.getRowTemplate env).2 with
      | some e => exact Or.inr ⟨_, indexLoop_cons_row_err env newEndpoint m c rest e ha hr⟩
      | none =>
        cases hu : (c.getURLTemplate env).2 with
        | some e => exact Or.inr ⟨_, indexLoop_cons_url_err env newEndpoint m c rest e ha hr hu⟩
        | none =>
          rw [indexLoop_cons_ok env newEndpoint m c rest (c.getAlertTemplate env).1
            (c.getRowTemplate env).1 (c.getURLTemplate env).1
            (Prod.ext rfl ha) (Prod.ext rfl hr) (Prod.ext rfl hu)]
          exact ih _

/-- When the loop succeeds, the templates of every Config resolved. -/
theorem indexLoop_success_all_ok {T E : Type} (env : Env T)
    (newEndpoint : Option T → List (String × String) → BasicAuth → Option T → Option T → E)
    (cs : Configs) :
    ∀ (m m2 : GoMap E), Configs.indexLoop env newEndpoint m cs = (some m2, none) →
      ∀ c ∈ cs, (c.getAlertTemplate env).2 = none ∧ (c.getRowTemplate env).2 = none ∧
        (c.getURLTemplate env).2 = none := by
  induction cs with
  | nil => intro _ _ _ c hc; simp at hc
  | cons c0 rest ih =>
    intro m m2 h c hc
    obtain ⟨ha, hr, hu, hloop⟩ := indexLoop_cons_inv env newEndpoint m m2 c0 rest h
    rcases List.mem_cons.1 hc with h1 | h1
    · subst h1
      exact ⟨ha, hr, hu⟩
    · exact ih _ m2 hloop c h1

theorem GetTemplate_file {T : Type} (env : Env T) (tpath : String) (h : tpath ≠ "") :
    GetTemplate env "" tpath =
      match env.readFile tpath with
      | .error e =>
        (none, some (GoError.wrapf (GoError.ext e) "failed to read template file %q" tpath))
      | .ok data =>
        match env.parse false data with
        | .ok t => (some t, none)
        | .error e =>
          (none, some (GoError.wrapf (GoError.ext e)
            "failed to parse template from file %q" tpath)) := by
  unfold GetTemplate
  rw [if_neg (fun h2 => h2 rfl), if_pos h]
  cases env.readFile tpath with
  | error e => rfl
  | ok data => cases env.parse false data <;> rfl

theorem mem_mapSet {V : Type} (m : GoMap V) (k : String) (v : V) (p : String × V)
    (h : p ∈ mapSet m k v) : p = (k, v) ∨ p ∈ m := by
  induction m with
  | nil =>
    simp only [mapSet, List.mem_singleton] at h
    exact Or.inl h
  | cons q rest ih =>
    obtain ⟨k0, v0⟩ := q
    by_cases h0 : k0 = k
    · simp only [mapSet, if_pos h0, List.mem_cons] at h
      rcases h with h | h
      · exact Or.inl h
      · exact Or.inr (List.mem_cons_of_mem _ h)
    · simp only [mapSet, if_neg h0, List.mem_cons] at h
      rcases h with h | h
      · exact Or.inr (h ▸ List.mem_cons_self _ _)
      · rcases ih h with h2 | h2
        · exact Or.inl h2
        · exact Or.inr (List.mem_cons_of_mem _ h2)

/-- Every entry of the map the loop returns was in the starting map or was
constructed from the resolved templates of a Config of the collection. -/
theorem indexLoop_entries {T E : Type} (env : Env T)
    (newEndpoint : Option T → List (String × String) → BasicAuth → Option T → Option T → E)
    (cs : Configs) :
    ∀ (m m2 : GoMap E), Configs.indexLoop env newEndpoint m cs = (some m2, none) →
      ∀ p ∈ m2, p ∈ m ∨ ∃ c ∈ cs, p = (c.Endpoint, newEndpoint (c.getURLTemplate env).1
        c.Headers c.BasicAuth (c.getAlertTemplate env).1 (c.getRowTemplate env).1) := by
  induction cs with
  | nil =>
    intro m m2 h p hp
    simp only [Configs.indexLoop, Prod.mk.injEq, Option.some.injEq, and_true] at h
    subst h
    exact Or.inl hp
  | cons c0 rest ih =>
    intro m m2 h p hp
    obtain ⟨_, _, _, hloop⟩ := indexLoop_cons_inv env newEndpoint m m2 c0 rest h
    rcases ih _ m2 hloop p hp with h1 | ⟨c, hc, h1⟩
    · rcases mem_mapSet m _ _ p h1 with h2 | h2
      · exact Or.inr ⟨c0, List.mem_cons_self c0 rest, h2⟩
      · exact Or.inl h2
    · exact Or.inr ⟨c, List.mem_cons_of_mem c0 hc, h1⟩

/-- The error of the loop is the wrapped error of a failed resolution of one of
the Configs. -/
theorem indexLoop_error_origin {T E : Type} (env : Env T)
    (newEndpoint : Option T → List (String × String) → BasicAuth → Option T → Option T → E)
    (cs : Configs) :
    ∀ (m : GoMap E) (err : GoError), (Configs.indexLoop env newEndpoint m cs).2 = some err →
      ∃ c ∈ cs,
        (∃ e, (c.getAlertTemplate env).2 = some e ∧
          err = GoError.wrapf e "failed to get alert-template for endpoint %q" c.Endpoint) ∨
        (∃ e, (c.getRowTemplate env).2 = some e ∧
          err = GoError.wrapf e "failed to get row-template for endpoint %q" c.Endpoint) ∨
        (∃ e, (c.getURLTemplate env).2 = some e ∧
          err = GoError.wrapf e "failed to get url for endpoint %q" c.Endpoint) := by
  induction cs with
  | nil => intro m err h; simp [Configs.indexLoop] at h
  | cons c rest ih =>
    intro m err h
    cases ha : (c.getAlertTemplate env).2 with
    | some e =>
      rw [indexLoop_cons_alert_err env newEndpoint m c rest e ha] at h
      simp only [Option.some.injEq] at h
      exact ⟨c, List.mem_cons_self c rest, Or.inl ⟨e, ha, h.symm⟩⟩
    | none =>
      cases hr : (c.getRowTemplate env).2 with
      | some e =>
        rw [indexLoop_cons_row_err env newEndpoint m c rest e ha hr] at h
        simp only [Option.some.injEq] at h
        exact ⟨c, List.mem_cons_self c rest, Or.inr (Or.inl ⟨e, hr, h.symm⟩)⟩
      | none =>
        cases hu : (c.getURLTemplate env).2 with
        | some e =>
          rw [indexLoop_cons_url_err env newEndpoint m c rest e ha hr hu] at h
          simp only [Option.some.injEq] at h
          exact ⟨c, List.mem_cons_self c rest, Or.inr (Or.inr ⟨e, hu, h.symm⟩)⟩
        | none =>
          rw [indexLoop_cons_ok env newEndpoint m c rest (c.getAlertTemplate env).1
            (c.getRowTemplate env).1 (c.getURLTemplate env).1
            (Prod.ext rfl ha) (Prod.ext rfl hr) (Prod.ext rfl hu)] at h
          obtain ⟨c2, hc2, h2⟩ := ih _ err h
          exact ⟨c2, List.mem_cons_of_mem c hc2, h2⟩

/-- A Config that passes `Validate` has a url template that `GetTemplate` parses. -/
theorem getURLTemplate_of_Validate {T : Type} (env : Env T) (c : Config)
    (h : c.Validate env = none) : ∃ t, c.getURLTemplate env = (some t, none) := by
  obtain ⟨⟨_, hU, t, _, hp, _, _⟩, _, _⟩ := (Validate_eq_none_iff_aux env c).1 h
  refine ⟨t, ?_⟩
  unfold Config.getURLTemplate
  rw [GetTemplate_inline env _ _ hU, hp]

/-! ## Lemmas on the model of `encoding/json` -/

/-- An opening bracket read outside a token opens an array unless the bound on
the nesting is reached. -/
theorem Go.stepBetween_bracket (depth : Nat) :
    Go.stepBetween depth '[' =
      if Go.maxNestingDepth < depth + 1 then none
      else some (depth + 1, Go.ScanState.betweenTokens, [Go.Token.beginArray]) := by
  unfold Go.stepBetween
  rw [if_neg (by decide), if_neg (by decide), if_pos rfl]

/-- A text that opens more arrays than the bound allows is an error of the
scanner, whatever follows the opening brackets. -/
theorem Go.scan_brackets_exceed (n : Nat) :
    ∀ (depth : Nat) (rest : List Char), depth ≤ Go.maxNestingDepth →
      Go.maxNestingDepth < depth + n →
      Go.scan depth Go.ScanState.betweenTokens (List.replicate n '[' ++ rest) = none := by
  induction n with
  | zero =>
    intro depth rest h1 h2
    omega
  | succ k ih =>
    intro depth rest h1 h2
    rw [List.replicate_succ, List.cons_append]
    unfold Go.scan
    simp only [Go.step, Go.stepBetween_bracket]
    by_cases hd : Go.maxNestingDepth < depth + 1
    · rw [if_pos hd]
    · rw [if_neg hd]
      simp only []
      rw [ih (depth + 1) rest (by omega) (by omega)]
      rfl

/-- The encoding of `null` inside `n` slices: `n` opening brackets, `null`, `n`
closing brackets. -/
theorem Go.marshalChars_nestedSlices (n : Nat) :
    Go.marshalChars (Go.nestedSlices n) =
      List.replicate n '[' ++ ("null".data ++ List.replicate n ']') := by
  induction n with
  | zero => rfl
  | succ k ih =>
    simp only [Go.nestedSlices, Go.marshalChars, ih]
    rw [List.replicate_succ, List.replicate_succ' k ']']
    simp only [List.cons_append, List.append_assoc]

/-- On `null` inside more slices than the scanner's bound the encoder succeeds,
`Compact` fails, and the two helpers differ by more than the final newline. -/
theorem Go.helpers_on_deep_value (n : Nat) (h : Go.maxNestingDepth < n) :
    Go.jsonPkg.encode (Go.nestedSlices n) =
      .ok (String.mk (List.replicate n '[' ++ ("null".data ++ List.replicate n ']')) ++ "\n") ∧
    FuncMap.jsonCompact Go.jsonPkg (Go.nestedSlices n) = "" ∧
    FuncMap.json Go.jsonPkg (Go.nestedSlices n) ≠
      FuncMap.jsonCompact Go.jsonPkg (Go.nestedSlices n) ++ "\n" := by
  have henc : Go.jsonPkg.encode (Go.nestedSlices n) =
      .ok (String.mk (List.replicate n '[' ++ ("null".data ++ List.replicate n ']')) ++ "\n") := by
    show Go.jsonEncode (Go.nestedSlices n) = _
    unfold Go.jsonEncode Go.marshal
    rw [Go.marshalChars_nestedSlices n]
  have hcompact : Go.jsonPkg.compact
      (String.mk (List.replicate n '[' ++ ("null".data ++ List.replicate n ']')) ++ "\n") =
      .error "json: invalid JSON text or exceeded max depth" := by
    show Go.jsonCompact _ = _
    unfold Go.jsonCompact
    have hdata : (String.mk (List.replicate n '[' ++ ("null".data ++ List.replicate n ']'))
        ++ "\n").data = List.replicate n '[' ++ (("null".data ++ List.replicate n ']') ++ "\n".data) := by
      rw [String.data_append, List.append_assoc]
    rw [hdata, Go.scan_brackets_exceed n 0 _ (Nat.zero_le _) (by omega)]
  have hjc : FuncMap.jsonCompact Go.jsonPkg (Go.nestedSlices n) = "" := by
    unfold FuncMap.jsonCompact
    simp only [henc, hcompact]
  have hj : FuncMap.json Go.jsonPkg (Go.nestedSlices n) =
      String.mk (List.replicate n '[' ++ ("null".data ++ List.replicate n ']')) ++ "\n" := by
    unfold FuncMap.json
    rw [henc]
  refine ⟨henc, hjc, ?_⟩
  rw [hj, hjc]
  intro heq
  have hdata := congrArg String.data heq
  obtain ⟨k, hk⟩ : ∃ k, n = k + 1 := ⟨n - 1, by omega⟩
  rw [String.data_append, String.data_append, hk, List.replicate_succ] at hdata
  simp at hdata

/-! ## Facts on the model of the standard library -/

theorem Go.parse_example_com :
    Go.env.parse true "http://example.com" = .ok [Go.Node.text "http://example.com"] := by
  rfl

theorem Go.execute_example_com :
    Go.env.execute [Go.Node.text "http://example.com"] = .ok "http://example.com" := by
  rfl

theorem Go.parse_not_a_url :
    Go.env.parse true "not a url" = .ok [Go.Node.text "not a url"] := by
  rfl

theorem Go.execute_not_a_url :
    Go.env.execute [Go.Node.text "not a url"] = .ok "not a url" := by
  rfl

theorem Go.parse_host_template :
    Go.env.parse true "http://\x7b\x7b.Host\x7d\x7d" =
      .ok [Go.Node.text "http://", Go.Node.field ["Host"]] := by
  rfl

theorem Go.execute_host_template :
    Go.env.execute [Go.Node.text "http://", Go.Node.field ["Host"]] =
      .ok "http://<no value>" := by
  rfl

/-! ## The claims -/

/-- C1: for every Config, `Validate` returns no error if and only if the endpoint
is non-empty; the url is non-empty, parses as a template and renders with no
data without error; whenever the rendered text is identical to the url it parses
as a URL; the alert template and alert template file are not both non-empty; the
alert template file is empty or an absolute path; and the same two rules hold
for the row template and row template file. -/
theorem C1_Validate_ok_iff {T : Type} (env : Env T) (c : Config) :
    c.Validate env = none ↔
      c.Endpoint ≠ "" ∧
      c.URLTemplate ≠ "" ∧
      (∃ t out, env.parse true c.URLTemplate = .ok t ∧ env.execute t = .ok out ∧
        (out = c.URLTemplate → env.urlParse out = none)) ∧
      ¬ (c.AlertTemplate ≠ "" ∧ c.AlertTemplateFile ≠ "") ∧
      (c.AlertTemplateFile = "" ∨ pathIsAbs c.AlertTemplateFile = true) ∧
      ¬ (c.RowTemplate ≠ "" ∧ c.RowTemplateFile ≠ "") ∧
      (c.RowTemplateFile = "" ∨ pathIsAbs c.RowTemplateFile = true) := by
  rw [Validate_eq_none_iff_aux]
  unfold Config.PassesURLChecks Config.AlertFieldsOK Config.RowFieldsOK
  constructor
  · rintro ⟨⟨h1, h2, h3⟩, ⟨h4, h5⟩, ⟨h6, h7⟩⟩
    exact ⟨h1, h2, h3, h4, h5, h6, h7⟩
  · rintro ⟨h1, h2, h3, h4, h5, h6, h7⟩
    exact ⟨⟨h1, h2, h3⟩, ⟨h4, h5⟩, ⟨h6, h7⟩⟩

/-- C2, counterexample: the model of `url.Parse` accepts the text `not a url` (a
relative reference without scheme), so `Validate` returns no error on the default
configuration with that url; and it accepts the empty text, on which `Validate`
fails all the same. -/
theorem C2_not_a_url_is_accepted :
    ({ NewConfig with URLTemplate := "not a url" } : Config).Validate Go.env = none ∧
    Go.env.urlParse "" = none ∧
    ({ NewConfig with URLTemplate := "" } : Config).Validate Go.env =
      some (GoError.new "must specify url") := by
  decide

/-- C2, amended: for every Config with a non-empty endpoint and alert and row
fields that satisfy their constraints, if the url is non-empty, parses as a
template and renders with no data to the url itself, then `Validate` succeeds if
and only if `url.Parse` accepts the url, and otherwise returns the invalid-URL
error wrapping the error of `url.Parse`; with the url `http://example.com`
`Validate` succeeds, and with the url `not a url` it succeeds too, since
`url.Parse` accepts that text. -/
theorem C2_static_url_checked_by_url_parse (c : Config) (hE : c.Endpoint ≠ "")
    (hA : c.AlertFieldsOK) (hR : c.RowFieldsOK) :
    (∀ {T : Type} (env : Env T) (t : T), c.URLTemplate ≠ "" →
      env.parse true c.URLTemplate = .ok t → env.execute t = .ok c.URLTemplate →
        (c.Validate env = none ↔ env.urlParse c.URLTemplate = none) ∧
        ∀ e, env.urlParse c.URLTemplate = some e →
          c.Validate env =
            some (GoError.wrapf (GoError.ext e) "invalid URL %q" c.URLTemplate)) ∧
    (c.URLTemplate = "http://example.com" → c.Validate Go.env = none) ∧
    (c.URLTemplate = "not a url" → c.Validate Go.env = none) := by
  refine ⟨?_, ?_, ?_⟩
  · intro T env t hU hp hx
    constructor
    · rw [Validate_eq_none_iff_aux]
      constructor
      · rintro ⟨⟨_, _, t2, out, hp2, hx2, hurl⟩, _⟩
        rw [hp] at hp2
        cases hp2
        rw [hx] at hx2
        cases hx2
        exact hurl rfl
      · intro hu
        exact ⟨⟨hE, hU, t, c.URLTemplate, hp, hx, fun _ => hu⟩, hA, hR⟩
    · intro e he
      rw [Validate_of_rendered env c t c.URLTemplate hE hU hp hx]
      simp only [if_true, he]
  · intro h
    rw [Validate_eq_none_iff_aux]
    refine ⟨⟨hE, ?_, [Go.Node.text "http://example.com"], "http://example.com", ?_, ?_, ?_⟩,
      hA, hR⟩
    · rw [h]; decide
    · rw [h]; exact Go.parse_example_com
    · exact Go.execute_example_com
    · intro _; decide
  · intro h
    rw [Validate_eq_none_iff_aux]
    refine ⟨⟨hE, ?_, [Go.Node.text "not a url"], "not a url", ?_, ?_, ?_⟩, hA, hR⟩
    · rw [h]; decide
    · rw [h]; exact Go.parse_not_a_url
    · exact Go.execute_not_a_url
    · intro _; decide

/-- C2, witness: the default configuration of `NewConfig` meets the hypotheses,
and on it `Validate` succeeds. -/
theorem C2_static_url_witness :
    NewConfig.Endpoint ≠ "" ∧ NewConfig.AlertFieldsOK ∧ NewConfig.RowFieldsOK ∧
    NewConfig.Validate Go.env = none ∧
    (NewConfig.Validate Go.env = none ↔ Go.env.urlParse NewConfig.URLTemplate = none) :=
  ⟨by decide, by decide, by decide,
    (C2_static_url_checked_by_url_parse NewConfig (by decide) (by decide) (by decide)).2.1 rfl,
    ((C2_static_url_checked_by_url_parse NewConfig (by decide) (by decide) (by decide)).1
      Go.env [Go.Node.text "http://example.com"] (by decide) Go.parse_example_com
      Go.execute_example_com).1⟩

/-- C3: for every Config with a non-empty endpoint, the url `http://{{.Host}}` and
alert and row fields that satisfy their constraints, `Validate` succeeds; and
for every Config whose url template parses and renders with no data to a text
that differs from the url, `Validate` returns the same result whatever
`url.Parse` accepts, and succeeds when the endpoint and url are non-empty and the
alert and row fields satisfy their constraints. -/
theorem C3_dynamic_url_skips_url_parse :
    (∀ c : Config, c.Endpoint ≠ "" → c.URLTemplate = "http://\x7b\x7b.Host\x7d\x7d" →
      c.AlertFieldsOK → c.RowFieldsOK → c.Validate Go.env = none) ∧
    (∀ {T : Type} (env : Env T) (c : Config) (t : T) (out : String),
      env.parse true c.URLTemplate = .ok t → env.execute t = .ok out → out ≠ c.URLTemplate →
        (∀ up : String → Option String,
          c.Validate { env with urlParse := up } = c.Validate env) ∧
        (c.Endpoint ≠ "" → c.URLTemplate ≠ "" → c.AlertFieldsOK → c.RowFieldsOK →
          c.Validate env = none)) := by
  constructor
  · intro c hE hU hA hR
    rw [Validate_eq_none_iff_aux]
    refine ⟨⟨hE, ?_, [Go.Node.text "http://", Go.Node.field ["Host"]], "http://<no value>",
      ?_, ?_, ?_⟩, hA, hR⟩
    · rw [hU]; decide
    · rw [hU]; exact Go.parse_host_template
    · exact Go.execute_host_template
    · intro h
      rw [hU] at h
      exact absurd h (by decide)
  · intro T env c t out hp hx hne
    constructor
    · intro up
      by_cases hE : c.Endpoint = ""
      · rw [Validate_of_endpoint_empty _ c hE, Validate_of_endpoint_empty _ c hE]
      by_cases hU : c.URLTemplate = ""
      · rw [Validate_of_url_empty _ c hE hU, Validate_of_url_empty _ c hE hU]
      rw [Validate_of_rendered env c t out hE hU hp hx,
        Validate_of_rendered { env with urlParse := up } c t out hE hU hp hx]
      have ho : ¬ c.URLTemplate = out := fun h => hne h.symm
      simp only [if_neg ho]
    · intro hE hU hA hR
      rw [Validate_eq_none_iff_aux]
      exact ⟨⟨hE, hU, t, out, hp, hx, fun h => absurd h hne⟩, hA, hR⟩

/-- C3, witness: on the default configuration with the url `http://{{.Host}}` the
template renders `http://<no value>`, `Validate` succeeds, and it still does when
`url.Parse` rejects every text. -/
theorem C3_dynamic_url_witness :
    ({ NewConfig with URLTemplate := "http://\x7b\x7b.Host\x7d\x7d" } : Config).Validate Go.env
      = none ∧
    ({ NewConfig with URLTemplate := "http://\x7b\x7b.Host\x7d\x7d" } : Config).Validate
      { Go.env with urlParse := fun _ => some "rejected" } =
    ({ NewConfig with URLTemplate := "http://\x7b\x7b.Host\x7d\x7d" } : Config).Validate Go.env :=
  ⟨C3_dynamic_url_skips_url_parse.1 _ (by decide) rfl (by decide) (by decide),
    (C3_dynamic_url_skips_url_parse.2 Go.env
      ({ NewConfig with URLTemplate := "http://\x7b\x7b.Host\x7d\x7d" } : Config)
      [Go.Node.text "http://", Go.Node.field ["Host"]] "http://<no value>"
      Go.parse_host_template Go.execute_host_template (by decide)).1 _⟩

/-- C4, counterexample: the collection holding the default configuration with the
inline alert template `{{` (an unclosed action) uses only inline templates and
passes `Validate`, and `index` returns the nil map and the error of the alert
template. -/
theorem C4_Validate_accepts_unparsable_alert_template :
    ({ NewConfig with AlertTemplate := "\x7b\x7b" } : Config).AlertTemplateFile = "" ∧
    ({ NewConfig with AlertTemplate := "\x7b\x7b" } : Config).RowTemplateFile = "" ∧
    Configs.Validate Go.env [{ NewConfig with AlertTemplate := "\x7b\x7b" }] = none ∧
    Configs.index Go.env NewEndpoint [{ NewConfig with AlertTemplate := "\x7b\x7b" }] =
      (none, some (GoError.wrapf
        (GoError.wrap (GoError.ext "template: body:1: unclosed action") "failed to parse template")
        "failed to get alert-template for endpoint %q" "example")) := by
  decide

/-- C4, amended: for every Configs that uses only inline templates and in which
every non-empty inline alert template and row template parses, if `Validate`
returns no error then `index` returns a mapping and no error. -/
theorem C4_Validate_then_index {T E : Type} (env : Env T)
    (newEndpoint : Option T → List (String × String) → BasicAuth → Option T → Option T → E)
    (cs : Configs)
    (hfiles : ∀ c ∈ cs, c.AlertTemplateFile = "" ∧ c.RowTemplateFile = "")
    (hparse : ∀ c ∈ cs, (c.AlertTemplate ≠ "" → ∃ t, env.parse true c.AlertTemplate = .ok t) ∧
      (c.RowTemplate ≠ "" → ∃ t, env.parse true c.RowTemplate = .ok t))
    (hvalid : Configs.Validate env cs = none) :
    ∃ m, Configs.index env newEndpoint cs = (some m, none) := by
  apply indexLoop_ok_aux env newEndpoint cs
  intro c hc
  obtain ⟨hfa, hfr⟩ := hfiles c hc
  obtain ⟨hpa, hpr⟩ := hparse c hc
  have hv := (Configs_Validate_eq_none_iff_aux env cs).1 hvalid c hc
  obtain ⟨⟨_, hU, t, _, hp, _, _⟩, _, _⟩ := (Validate_eq_none_iff_aux env c).1 hv
  refine ⟨?_, ?_, ?_⟩
  · unfold Config.getAlertTemplate
    rw [hfa]
    exact GetTemplate_inline_err_none env _ hpa
  · unfold Config.getRowTemplate
    rw [hfr]
    exact GetTemplate_inline_err_none env _ hpr
  · unfold Config.getURLTemplate
    exact GetTemplate_inline_err_none env _ (fun _ => ⟨t, hp⟩)

/-- C4, witness: the collection holding the default configuration with the inline
alert template `alert` passes `Validate`, and `index` returns a mapping with the
entry of `example`. -/
theorem C4_Validate_then_index_witness :
    Configs.Validate Go.env [{ NewConfig with AlertTemplate := "alert" }] = none ∧
    ∃ m, Configs.index Go.env NewEndpoint [{ NewConfig with AlertTemplate := "alert" }] =
      (some m, none) :=
  ⟨by decide,
    C4_Validate_then_index Go.env NewEndpoint [{ NewConfig with AlertTemplate := "alert" }]
      (fun c hc => by
        rw [List.mem_singleton] at hc
        subst hc
        exact ⟨rfl, rfl⟩)
      (fun c hc => by
        rw [List.mem_singleton] at hc
        subst hc
        exact ⟨fun _ => ⟨[Go.Node.text "alert"], rfl⟩, fun h => absurd rfl h⟩)
      (by decide)⟩

/-- C5: for every Config with an empty endpoint, `Validate` fails with the error
for the missing endpoint whatever the other fields hold; and for every Config
with an empty url, `Validate` fails with one of the two missing-field errors,
the one for the url when the endpoint is non-empty. -/
theorem C5_missing_fields {T : Type} (env : Env T) (c : Config) :
    (c.Endpoint = "" → c.Validate env = some (GoError.new "must specify endpoint name")) ∧
    (c.URLTemplate = "" →
      (c.Validate env = some (GoError.new "must specify endpoint name") ∨
        c.Validate env = some (GoError.new "must specify url")) ∧
      (c.Endpoint ≠ "" → c.Validate env = some (GoError.new "must specify url"))) := by
  refine ⟨Validate_of_endpoint_empty env c, fun hU => ⟨?_, fun hE => Validate_of_url_empty env c hE hU⟩⟩
  by_cases hE : c.Endpoint = ""
  · exact Or.inl (Validate_of_endpoint_empty env c hE)
  · exact Or.inr (Validate_of_url_empty env c hE hU)

/-- C5, witness: a Config with empty endpoint and url reports the endpoint, and
one with only the url empty reports the url. -/
theorem C5_missing_fields_witness :
    ({ NewConfig with Endpoint := "", URLTemplate := "" } : Config).Validate Go.env =
      some (GoError.new "must specify endpoint name") ∧
    ({ NewConfig with URLTemplate := "" } : Config).Validate Go.env =
      some (GoError.new "must specify url") :=
  ⟨(C5_missing_fields Go.env { NewConfig with Endpoint := "", URLTemplate := "" }).1 rfl,
    ((C5_missing_fields Go.env { NewConfig with URLTemplate := "" }).2 rfl).2 (by decide)⟩

/-- C6, counterexample: a Config with both alert fields set and an empty endpoint
fails with the missing-endpoint error, not the conflict error of the alert pair;
and a Config with both row fields and both alert fields set fails with the
conflict error of the alert pair, not the one of the row pair. -/
theorem C6_conflict_is_not_always_reported :
    ({ NewConfig with Endpoint := "", AlertTemplate := "a", AlertTemplateFile := "/b" } :
        Config).Validate Go.env = some (GoError.new "must specify endpoint name") ∧
    ({ NewConfig with
        AlertTemplate := "a", AlertTemplateFile := "/b",
        RowTemplate := "r", RowTemplateFile := "/s" } : Config).Validate Go.env =
      some (GoError.new "must specify only one of alert-template and alert-template-file") := by
  decide

/-- C6, amended: for every Config in which the alert template and the alert
template file are both non-empty, `Validate` fails, and when the Config passes
the endpoint and url checks the error is the conflict error of the alert pair;
for every Config in which the row template and the row template file are both
non-empty, `Validate` fails, and when the Config passes the endpoint and url
checks and its alert pair satisfies its constraints the error is the conflict
error of the row pair. -/
theorem C6_conflicting_fields {T : Type} (env : Env T) (c : Config) :
    (c.AlertTemplate ≠ "" ∧ c.AlertTemplateFile ≠ "" →
      c.Validate env ≠ none ∧
      (c.PassesURLChecks env → c.Validate env =
        some (GoError.new "must specify only one of alert-template and alert-template-file"))) ∧
    (c.RowTemplate ≠ "" ∧ c.RowTemplateFile ≠ "" →
      c.Validate env ≠ none ∧
      (c.PassesURLChecks env → c.AlertFieldsOK → c.Validate env =
        some (GoError.new "must specify only one of row-template and row-template-file"))) := by
  constructor
  · intro hboth
    constructor
    · intro h
      exact ((Validate_eq_none_iff_aux env c).1 h).2.1.1 hboth
    · rintro ⟨hE, hU, t, out, hp, hx, hurl⟩
      rw [Validate_of_rendered env c t out hE hU hp hx]
      by_cases ho : c.URLTemplate = out
      · simp only [if_pos ho, hurl ho.symm, if_pos hboth]
      · simp only [if_neg ho, if_pos hboth]
  · intro hboth
    constructor
    · intro h
      exact ((Validate_eq_none_iff_aux env c).1 h).2.2.1 hboth
    · rintro ⟨hE, hU, t, out, hp, hx, hurl⟩ ⟨hA1, hA2⟩
      have h2 : ¬ (c.AlertTemplateFile ≠ "" ∧ pathIsAbs c.AlertTemplateFile = false) := by
        rintro ⟨hf, hb⟩
        rcases hA2 with h | h
        · exact hf h
        · rw [hb] at h; cases h
      rw [Validate_of_rendered env c t out hE hU hp hx]
      by_cases ho : c.URLTemplate = out
      · simp only [if_pos ho, hurl ho.symm, if_neg hA1, if_neg h2, if_pos hboth]
      · simp only [if_neg ho, if_neg hA1, if_neg h2, if_pos hboth]

/-- C6, witness: the default configuration with both alert fields set reports the
alert conflict, and with both row fields set the row conflict. -/
theorem C6_conflicting_fields_witness :
    ({ NewConfig with AlertTemplate := "a", AlertTemplateFile := "/b" } : Config).Validate Go.env =
      some (GoError.new "must specify only one of alert-template and alert-template-file") ∧
    ({ NewConfig with RowTemplate := "r", RowTemplateFile := "/s" } : Config).Validate Go.env =
      some (GoError.new "must specify only one of row-template and row-template-file") :=
  ⟨((C6_conflicting_fields Go.env
      { NewConfig with AlertTemplate := "a", AlertTemplateFile := "/b" }).1
        ⟨by decide, by decide⟩).2
      ⟨by decide, by decide, _, _, Go.parse_example_com, Go.execute_example_com,
        fun _ => by decide⟩,
    ((C6_conflicting_fields Go.env
      { NewConfig with RowTemplate := "r", RowTemplateFile := "/s" }).2
        ⟨by decide, by decide⟩).2
      ⟨by decide, by decide, _, _, Go.parse_example_com, Go.execute_example_com,
        fun _ => by decide⟩ (by decide)⟩

/-- C7: for every Config that passes the endpoint and url checks, if the alert
template is empty and the alert template file is non-empty and not an absolute
path, `Validate` fails with the relative-path error for alert-template-file; and
if the alert pair satisfies its constraints, the row template is empty and the
row template file is non-empty and not an absolute path, `Validate` fails with
the relative-path error for row-template-file. -/
theorem C7_relative_path {T : Type} (env : Env T) (c : Config) (hurl : c.PassesURLChecks env) :
    (c.AlertTemplate = "" → c.AlertTemplateFile ≠ "" → pathIsAbs c.AlertTemplateFile = false →
      c.Validate env = some (GoError.new "must use an absolute path for alert-template-file")) ∧
    (c.AlertFieldsOK → c.RowTemplate = "" → c.RowTemplateFile ≠ "" →
      pathIsAbs c.RowTemplateFile = false →
      c.Validate env = some (GoError.new "must use an absolute path for row-template-file")) := by
  obtain ⟨hE, hU, t, out, hp, hx, hu⟩ := hurl
  have hurlcheck : (if c.URLTemplate = out then env.urlParse out else none) = none := by
    by_cases ho : c.URLTemplate = out
    · rw [if_pos ho]; exact hu ho.symm
    · rw [if_neg ho]
  constructor
  · intro hA hF hrel
    have h1 : ¬ (c.AlertTemplate ≠ "" ∧ c.AlertTemplateFile ≠ "") := fun h => h.1 hA
    rw [Validate_of_rendered env c t out hE hU hp hx, hurlcheck]
    simp only [if_neg h1, if_pos (And.intro hF hrel)]
  · rintro ⟨hA1, hA2⟩ hR hF hrel
    have h2 : ¬ (c.AlertTemplateFile ≠ "" ∧ pathIsAbs c.AlertTemplateFile = false) := by
      rintro ⟨hf, hb⟩
      rcases hA2 with h | h
      · exact hf h
      · rw [hb] at h; cases h
    have h3 : ¬ (c.RowTemplate ≠ "" ∧ c.RowTemplateFile ≠ "") := fun h => h.1 hR
    rw [Validate_of_rendered env c t out hE hU hp hx, hurlcheck]
    simp only [if_neg hA1, if_neg h2, if_neg h3, if_pos (And.intro hF hrel)]

/-- C7, witness: the default configuration passes the endpoint and url checks; with
the alert template file `templates/alert.tmpl` it reports the relative path of
alert-template-file, and with the row template file `row.tmpl` that of
row-template-file. -/
theorem C7_relative_path_witness :
    NewConfig.PassesURLChecks Go.env ∧
    ({ NewConfig with AlertTemplateFile := "templates/alert.tmpl" } : Config).Validate Go.env =
      some (GoError.new "must use an absolute path for alert-template-file") ∧
    ({ NewConfig with RowTemplateFile := "row.tmpl" } : Config).Validate Go.env =
      some (GoError.new "must use an absolute path for row-template-file") :=
  ⟨⟨by decide, by decide, _, _, Go.parse_example_com, Go.execute_example_com,
      fun _ => by decide⟩,
    (C7_relative_path Go.env { NewConfig with AlertTemplateFile := "templates/alert.tmpl" }
      ⟨by decide, by decide, _, _, Go.parse_example_com, Go.execute_example_com,
        fun _ => by decide⟩).1 rfl (by decide) (by decide),
    (C7_relative_path Go.env { NewConfig with RowTemplateFile := "row.tmpl" }
      ⟨by decide, by decide, _, _, Go.parse_example_com, Go.execute_example_com,
        fun _ => by decide⟩).2 (by decide) rfl (by decide) (by decide)⟩

/-- C8: `Validate` reports only the first violated check, in the order endpoint
missing, url missing, url template fails to parse, url template fails to render
with no data, static url is not a valid URL, both alert fields set, alert
template file relative, both row fields set, row template file relative: its
result is the first error in the list of these nine checks, so whenever a check
is violated and no earlier one is, `Validate` returns the error of that check
whatever the later checks say. -/
theorem C8_first_violated_check {T : Type} (env : Env T) (c : Config) :
    c.Validate env = firstError (c.checks env) ∧
    (c.checks env).length = 9 ∧
    ∀ (i : Nat) (e : GoError), (c.checks env)[i]? = some (some e) →
      (∀ j, j < i → (c.checks env)[j]? = some none) → c.Validate env = some e := by
  refine ⟨Validate_eq_firstError env c, rfl, ?_⟩
  intro i e h hlt
  rw [Validate_eq_firstError]
  exact firstError_of_first _ i e h hlt

/-- C8, witness: a Config that violates the url check (index 1), the alert conflict
(index 5) and the row conflict (index 7) reports the missing url. -/
theorem C8_first_violated_check_witness :
    ({ NewConfig with
        URLTemplate := "", AlertTemplate := "a", AlertTemplateFile := "b",
        RowTemplate := "r", RowTemplateFile := "s" } : Config).Validate Go.env =
      some (GoError.new "must specify url") :=
  (C8_first_violated_check Go.env
    { NewConfig with
        URLTemplate := "", AlertTemplate := "a", AlertTemplateFile := "b",
        RowTemplate := "r", RowTemplateFile := "s" }).2.2 1 _ rfl
    (fun j hj => by
      have hj0 : j = 0 := by omega
      subst hj0
      rfl)

/-- C9: for every Configs, `Validate` returns no error if and only if the
`Validate` of every element returns no error, so the empty collection is valid;
otherwise it returns exactly the error of the first invalid element in list
order, whatever the later elements are. -/
theorem C9_Configs_Validate {T : Type} (env : Env T) (cs : Configs) :
    (Configs.Validate env cs = none ↔ ∀ c ∈ cs, c.Validate env = none) ∧
    Configs.Validate env ([] : Configs) = none ∧
    ∀ (pre : List Config) (c : Config) (post : List Config) (e : GoError),
      cs = pre ++ c :: post → (∀ x ∈ pre, x.Validate env = none) → c.Validate env = some e →
        Configs.Validate env cs = some e := by
  refine ⟨Configs_Validate_eq_none_iff_aux env cs, rfl, ?_⟩
  intro pre c post e hcs hpre hc
  rw [hcs]
  exact Configs_Validate_first_aux env pre c post e hpre hc

/-- C9, witness: of a valid Config followed by one without url and one without
endpoint, the collection reports the missing url of the second. -/
theorem C9_Configs_Validate_witness :
    Configs.Validate Go.env
      [NewConfig, { NewConfig with URLTemplate := "" }, { NewConfig with Endpoint := "" }] =
      some (GoError.new "must specify url") :=
  (C9_Configs_Validate Go.env
    [NewConfig, { NewConfig with URLTemplate := "" }, { NewConfig with Endpoint := "" }]).2.2
    [NewConfig] { NewConfig with URLTemplate := "" } [{ NewConfig with Endpoint := "" }] _ rfl
    (fun x hx => by
      rw [List.mem_singleton] at hx
      subst hx
      decide)
    (by decide)

/-- C10: for every Configs on which `index` succeeds, the keys of the returned
mapping are exactly the endpoint names occurring in the collection, each key
has exactly one entry, and the entry of a name is the Endpoint constructed from
the URL template, headers, basic-auth, alert template and row template of the
last Config carrying that name; in particular two Configs with the same endpoint
name yield the mapping with the one entry constructed from the second Config. -/
theorem C10_index_last_write_wins {T E : Type} (env : Env T)
    (newEndpoint : Option T → List (String × String) → BasicAuth → Option T → Option T → E)
    (cs : Configs) (m : GoMap E) (h : Configs.index env newEndpoint cs = (some m, none)) :
    (∀ k, k ∈ mapKeys m ↔ ∃ c ∈ cs, c.Endpoint = k) ∧
    (∀ k, k ∈ mapKeys m → (mapKeys m).count k = 1) ∧
    (∀ (pre : List Config) (c : Config) (post : List Config), cs = pre ++ c :: post →
      (∀ x ∈ post, x.Endpoint ≠ c.Endpoint) →
      mapGet m c.Endpoint = some (newEndpoint (c.getURLTemplate env).1 c.Headers c.BasicAuth
        (c.getAlertTemplate env).1 (c.getRowTemplate env).1)) ∧
    (∀ c1 c2 : Config, cs = [c1, c2] → c1.Endpoint = c2.Endpoint →
      m = [(c2.Endpoint, newEndpoint (c2.getURLTemplate env).1 c2.Headers c2.BasicAuth
        (c2.getAlertTemplate env).1 (c2.getRowTemplate env).1)]) := by
  obtain ⟨h1, h2, _, h4⟩ := indexLoop_spec env newEndpoint cs [] m h
  refine ⟨?_, ?_, h4, ?_⟩
  · intro k
    rw [h1 k]
    simp [mapKeys]
  · intro k hk
    exact List.count_eq_one_of_mem (h2 (by simp [mapKeys])) hk
  · intro c1 c2 hcs hname
    subst hcs
    obtain ⟨_, _, _, hl1⟩ := indexLoop_cons_inv env newEndpoint [] m c1 [c2] h
    obtain ⟨_, _, _, hl2⟩ := indexLoop_cons_inv env newEndpoint _ m c2 [] hl1
    simp only [Configs.indexLoop, Prod.mk.injEq, Option.some.injEq, and_true] at hl2
    rw [← hl2]
    simp [mapSet, hname]

/-- C10, witness: two Configs named `example`, the second with the inline alert
template `second`, index to the one entry holding the templates of the second. -/
theorem C10_index_last_write_wins_witness :
    Configs.index Go.env NewEndpoint
      [{ NewConfig with AlertTemplate := "first" }, { NewConfig with AlertTemplate := "second" }] =
      (some [("example", NewEndpoint (some [Go.Node.text "http://example.com"]) []
        ⟨"", ""⟩ (some [Go.Node.text "second"]) none)], none) ∧
    [("example", NewEndpoint (some [Go.Node.text "http://example.com"]) []
        ⟨"", ""⟩ (some [Go.Node.text "second"]) none)] =
      [(({ NewConfig with AlertTemplate := "second" } : Config).Endpoint,
        NewEndpoint (Config.getURLTemplate Go.env { NewConfig with AlertTemplate := "second" }).1
          ({ NewConfig with AlertTemplate := "second" } : Config).Headers
          ({ NewConfig with AlertTemplate := "second" } : Config).BasicAuth
          (Config.getAlertTemplate Go.env { NewConfig with AlertTemplate := "second" }).1
          (Config.getRowTemplate Go.env { NewConfig with AlertTemplate := "second" }).1)] :=
  ⟨by decide,
    (C10_index_last_write_wins Go.env NewEndpoint
      [{ NewConfig with AlertTemplate := "first" }, { NewConfig with AlertTemplate := "second" }]
      _ (by decide)).2.2.2 _ _ rfl rfl⟩

/-- C11: `Configs.index` is all-or-nothing. It returns an error if and only if
resolving the alert, row or url template of some Config fails; it returns either
a mapping and no error or the nil mapping and an error; and the error is that of
the first failing resolution, taking the Configs in list order and within one
Config the order alert, row, url, wrapped with the field and the endpoint name
of that Config. -/
theorem C11_index_all_or_nothing {T E : Type} (env : Env T)
    (newEndpoint : Option T → List (String × String) → BasicAuth → Option T → Option T → E)
    (cs : Configs) :
    ((Configs.index env newEndpoint cs).2 ≠ none ↔
      ∃ c ∈ cs, (c.getAlertTemplate env).2 ≠ none ∨ (c.getRowTemplate env).2 ≠ none ∨
        (c.getURLTemplate env).2 ≠ none) ∧
    ((∃ m, Configs.index env newEndpoint cs = (some m, none)) ∨
      (∃ e, Configs.index env newEndpoint cs = (none, some e))) ∧
    (∀ (pre : List Config) (c : Config) (post : List Config), cs = pre ++ c :: post →
      (∀ x ∈ pre, (x.getAlertTemplate env).2 = none ∧ (x.getRowTemplate env).2 = none ∧
        (x.getURLTemplate env).2 = none) →
      (∀ e, (c.getAlertTemplate env).2 = some e →
        Configs.index env newEndpoint cs = (none, some (GoError.wrapf e
          "failed to get alert-template for endpoint %q" c.Endpoint))) ∧
      (∀ e, (c.getAlertTemplate env).2 = none → (c.getRowTemplate env).2 = some e →
        Configs.index env newEndpoint cs = (none, some (GoError.wrapf e
          "failed to get row-template for endpoint %q" c.Endpoint))) ∧
      (∀ e, (c.getAlertTemplate env).2 = none → (c.getRowTemplate env).2 = none →
        (c.getURLTemplate env).2 = some e →
        Configs.index env newEndpoint cs = (none, some (GoError.wrapf e
          "failed to get url for endpoint %q" c.Endpoint)))) := by
  refine ⟨?_, indexLoop_result_shape env newEndpoint cs [], ?_⟩
  · constructor
    · intro herr
      by_contra hno
      have hall : ∀ c ∈ cs, (c.getAlertTemplate env).2 = none ∧
          (c.getRowTemplate env).2 = none ∧ (c.getURLTemplate env).2 = none := by
        intro c hc
        by_contra hc2
        apply hno
        refine ⟨c, hc, ?_⟩
        by_contra h3
        apply hc2
        refine ⟨?_, ?_, ?_⟩
        · by_contra h4; exact h3 (Or.inl h4)
        · by_contra h4; exact h3 (Or.inr (Or.inl h4))
        · by_contra h4; exact h3 (Or.inr (Or.inr h4))
      obtain ⟨m2, hm2⟩ := indexLoop_ok_aux env newEndpoint cs hall []
      apply herr
      unfold Configs.index
      rw [hm2]
    · rintro ⟨c, hc, hfail⟩ hnone
      rcases indexLoop_result_shape env newEndpoint cs [] with ⟨m2, hm2⟩ | ⟨e, he⟩
      · obtain ⟨ha, hr, hu⟩ := indexLoop_success_all_ok env newEndpoint cs [] m2 hm2 c hc
        rcases hfail with h | h | h
        · exact h ha
        · exact h hr
        · exact h hu
      · unfold Configs.index at hnone
        rw [he] at hnone
        cases hnone
  · intro pre c post hcs hpre
    subst hcs
    obtain ⟨m2, hm2⟩ := indexLoop_append_ok env newEndpoint pre hpre [] (c :: post)
    unfold Configs.index
    rw [hm2]
    refine ⟨?_, ?_, ?_⟩
    · intro e ha
      exact indexLoop_cons_alert_err env newEndpoint m2 c post e ha
    · intro e ha hr
      exact indexLoop_cons_row_err env newEndpoint m2 c post e ha hr
    · intro e ha hr hu
      exact indexLoop_cons_url_err env newEndpoint m2 c post e ha hr hu

/-- C11, witness: of the default configuration followed by one whose row template
is the unclosed action `{{` and one whose alert template is, `index` returns the
nil mapping and the row error of the second. -/
theorem C11_index_all_or_nothing_witness :
    Configs.index Go.env NewEndpoint
      [NewConfig, { NewConfig with Endpoint := "second", RowTemplate := "\x7b\x7b" },
        { NewConfig with AlertTemplate := "\x7b\x7b" }] =
      (none, some (GoError.wrapf
        (GoError.wrap (GoError.ext "template: body:1: unclosed action") "failed to parse template")
        "failed to get row-template for endpoint %q" "second")) :=
  ((C11_index_all_or_nothing Go.env NewEndpoint
      [NewConfig, { NewConfig with Endpoint := "second", RowTemplate := "\x7b\x7b" },
        { NewConfig with AlertTemplate := "\x7b\x7b" }]).2.2
    [NewConfig] { NewConfig with Endpoint := "second", RowTemplate := "\x7b\x7b" }
    [{ NewConfig with AlertTemplate := "\x7b\x7b" }] rfl
    (fun x hx => by
      rw [List.mem_singleton] at hx
      subst hx
      decide)).2.1 _ (by decide) (by decide)

/-- C12: for every pair of an inline text and a file path, `GetTemplate` returns
one of three outcomes: a parsed template with no error, nil with no error, or an
error with no template; and it returns nil with no error if and only if both the
inline text and the file path are empty. -/
theorem C12_GetTemplate_outcomes {T : Type} (env : Env T) (tmpl tpath : String) :
    ((∃ t, GetTemplate env tmpl tpath = (some t, none)) ∨
      GetTemplate env tmpl tpath = (none, none) ∨
      (∃ e, GetTemplate env tmpl tpath = (none, some e))) ∧
    (GetTemplate env tmpl tpath = (none, none) ↔ tmpl = "" ∧ tpath = "") := by
  by_cases h1 : tmpl = ""
  · subst h1
    by_cases h2 : tpath = ""
    · subst h2
      rw [GetTemplate_empty]
      exact ⟨Or.inr (Or.inl rfl), by simp⟩
    · rw [GetTemplate_file env tpath h2]
      cases env.readFile tpath with
      | error e => exact ⟨Or.inr (Or.inr ⟨_, rfl⟩), by simp [h2]⟩
      | ok data =>
        dsimp only
        cases env.parse false data with
        | error e => exact ⟨Or.inr (Or.inr ⟨_, rfl⟩), by simp [h2]⟩
        | ok t => exact ⟨Or.inl ⟨t, rfl⟩, by simp [h2]⟩
  · rw [GetTemplate_inline env tmpl tpath h1]
    cases env.parse true tmpl with
    | error e => exact ⟨Or.inr (Or.inr ⟨_, rfl⟩), by simp [h1]⟩
    | ok t => exact ⟨Or.inl ⟨t, rfl⟩, by simp [h1]⟩

/-- C12, witness: on the model of the standard library with one file, the empty
pair gives nil and no error, an inline text its template, a missing file an
error. -/
theorem C12_GetTemplate_outcomes_witness :
    GetTemplate (Go.envWith [("/etc/alert.tmpl", "alert")]) "" "" = (none, none) ∧
    GetTemplate (Go.envWith [("/etc/alert.tmpl", "alert")]) "" "/etc/alert.tmpl" =
      (some [Go.Node.text "alert"], none) ∧
    GetTemplate (Go.envWith [("/etc/alert.tmpl", "alert")]) "" "/etc/row.tmpl" =
      (none, some (GoError.wrapf (GoError.ext "open /etc/row.tmpl: no such file or directory")
        "failed to read template file %q" "/etc/row.tmpl")) :=
  ⟨(C12_GetTemplate_outcomes (Go.envWith [("/etc/alert.tmpl", "alert")]) "" "").2.2 ⟨rfl, rfl⟩,
    by decide, by decide⟩

/-- C13: for every non-empty inline text and every file path, `GetTemplate` gives
exactly the result it gives for the inline text and the empty path, whatever
reading files returns: the inline source takes precedence, the file is not read
and the path does not affect the returned template or error. -/
theorem C13_inline_takes_precedence {T : Type} (env : Env T) (tmpl tpath : String)
    (h : tmpl ≠ "") :
    GetTemplate env tmpl tpath = GetTemplate env tmpl "" ∧
    ∀ readFile : String → Except String String,
      GetTemplate { env with readFile := readFile } tmpl tpath = GetTemplate env tmpl "" := by
  constructor
  · rw [GetTemplate_inline env tmpl tpath h, GetTemplate_inline env tmpl "" h]
  · intro readFile
    rw [GetTemplate_inline _ tmpl tpath h, GetTemplate_inline env tmpl "" h]

/-- C13, witness: the inline text `inline` with the path of a file holding an
unclosed action gives the inline template. -/
theorem C13_inline_takes_precedence_witness :
    GetTemplate (Go.envWith [("/etc/alert.tmpl", "\x7b\x7b")]) "inline" "/etc/alert.tmpl" =
      GetTemplate (Go.envWith [("/etc/alert.tmpl", "\x7b\x7b")]) "inline" "" ∧
    GetTemplate (Go.envWith [("/etc/alert.tmpl", "\x7b\x7b")]) "inline" "/etc/alert.tmpl" =
      (some [Go.Node.text "inline"], none) :=
  ⟨(C13_inline_takes_precedence (Go.envWith [("/etc/alert.tmpl", "\x7b\x7b")]) "inline"
      "/etc/alert.tmpl" (by decide)).1, by decide⟩

/-- C14: for every BasicAuth, `valid` is true if and only if both the username and
the password are non-empty, and `validate` returns an error if and only if
`valid` is false; so the value with username `u` and empty password is invalid
and an error, and the value with username `u` and password `p` is valid. -/
theorem C14_BasicAuth_valid (b : BasicAuth) :
    (b.valid = true ↔ b.Username ≠ "" ∧ b.Password ≠ "") ∧
    (b.validate ≠ none ↔ b.valid = false) ∧
    (BasicAuth.mk "u" "").valid = false ∧
    (BasicAuth.mk "u" "").validate ≠ none ∧
    (BasicAuth.mk "u" "p").valid = true ∧
    (BasicAuth.mk "u" "p").validate = none := by
  refine ⟨?_, ?_, by decide, by decide, by decide, by decide⟩
  · simp [BasicAuth.valid]
  · unfold BasicAuth.validate
    cases b.valid <;> simp

/-- C15: `Validate` does not look at the basic-auth value, the headers or the
filesystem: two Configs that agree on the endpoint, the url and the four
template fields have the same `Validate` result, whatever reading files returns
for either; in particular a Config that passes `Validate` still passes it with
any other basic-auth value, such as the empty one or the one with username `u`
and empty password. -/
theorem C15_Validate_ignores_auth {T : Type} (env : Env T) (c1 c2 : Config)
    (readFile : String → Except String String)
    (hE : c1.Endpoint = c2.Endpoint) (hU : c1.URLTemplate = c2.URLTemplate)
    (hA : c1.AlertTemplate = c2.AlertTemplate)
    (hAF : c1.AlertTemplateFile = c2.AlertTemplateFile)
    (hR : c1.RowTemplate = c2.RowTemplate) (hRF : c1.RowTemplateFile = c2.RowTemplateFile) :
    c1.Validate env = c2.Validate { env with readFile := readFile } ∧
    (c1.Validate env = none →
      ({ c1 with BasicAuth := ⟨"", ""⟩ } : Config).Validate env = none ∧
      ({ c1 with BasicAuth := ⟨"u", ""⟩ } : Config).Validate env = none) := by
  have key : ∀ (e1 e2 : Env T) (a b : Config), e1.parse = e2.parse → e1.execute = e2.execute →
      e1.urlParse = e2.urlParse → a.Endpoint = b.Endpoint → a.URLTemplate = b.URLTemplate →
      a.AlertTemplate = b.AlertTemplate → a.AlertTemplateFile = b.AlertTemplateFile →
      a.RowTemplate = b.RowTemplate → a.RowTemplateFile = b.RowTemplateFile →
      a.Validate e1 = b.Validate e2 := by
    intro e1 e2 a b hp hx hu h1 h2 h3 h4 h5 h6
    rw [Validate_eq_firstError, Validate_eq_firstError]
    unfold Config.checks
    rw [hp, hx, hu, h1, h2, h3, h4, h5, h6]
  refine ⟨key _ _ c1 c2 rfl rfl rfl hE hU hA hAF hR hRF, ?_⟩
  intro hv
  constructor
  · rw [← hv]
    exact key _ _ _ c1 rfl rfl rfl rfl rfl rfl rfl rfl rfl
  · rw [← hv]
    exact key _ _ _ c1 rfl rfl rfl rfl rfl rfl rfl rfl rfl

/-- C15, witness: the default configuration and the one with headers and the
basic-auth value of username `u` and empty password both pass `Validate`, the
second on a filesystem with a file. -/
theorem C15_Validate_ignores_auth_witness :
    NewConfig.Validate Go.env =
      ({ NewConfig with BasicAuth := ⟨"u", ""⟩, Headers := [("X-Token", "t")] } :
        Config).Validate { Go.env with readFile := fun _ => .ok "data" } ∧
    ({ NewConfig with BasicAuth := ⟨"u", ""⟩ } : Config).Validate Go.env = none :=
  ⟨(C15_Validate_ignores_auth Go.env NewConfig
      { NewConfig with BasicAuth := ⟨"u", ""⟩, Headers := [("X-Token", "t")] }
      (fun _ => .ok "data") rfl rfl rfl rfl rfl rfl).1,
    ((C15_Validate_ignores_auth Go.env NewConfig NewConfig Go.env.readFile
      rfl rfl rfl rfl rfl rfl).2 (by decide)).2⟩

/-- C16, counterexample: the value `null` inside 10001 slices encodes successfully,
but its encoding opens more arrays than `Compact` allows, so `Compact` fails, the
helper `jsonCompact` drops the error and returns the empty text, and `json` is
not `jsonCompact` followed by a newline. -/
theorem C16_jsonCompact_empty_on_deep_value :
    (∃ encoding, Go.jsonPkg.encode (Go.nestedSlices 10001) = .ok (encoding ++ "\n")) ∧
    FuncMap.jsonCompact Go.jsonPkg (Go.nestedSlices 10001) = "" ∧
    FuncMap.json Go.jsonPkg (Go.nestedSlices 10001) ≠
      FuncMap.jsonCompact Go.jsonPkg (Go.nestedSlices 10001) ++ "\n" :=
  ⟨⟨_, (Go.helpers_on_deep_value 10001 (by decide)).1⟩,
    (Go.helpers_on_deep_value 10001 (by decide)).2.1,
    (Go.helpers_on_deep_value 10001 (by decide)).2.2⟩

/-- C16, amended: for every value that encodes successfully, the encoder writing
the encoding followed by a newline, the helper `json` returns the encoding ending
in a newline; the helper `jsonCompact` returns what `Compact` makes of these
bytes when `Compact` accepts them, so when that is the encoding without the
newline `json` equals `jsonCompact` followed by a newline; and when `Compact`
rejects them `jsonCompact` returns the empty text. For the map `{"a":1}` the
helper `json` yields `{"a":1}` with a final newline and `jsonCompact` yields
`{"a":1}`. -/
theorem C16_json_helpers {V : Type} (pkg : JsonPkg V) (v : V) (encoding : String)
    (hEncode : pkg.encode v = .ok (encoding ++ "\n")) :
    FuncMap.json pkg v = encoding ++ "\n" ∧
    (∀ out, pkg.compact (encoding ++ "\n") = .ok out → FuncMap.jsonCompact pkg v = out) ∧
    (pkg.compact (encoding ++ "\n") = .ok encoding →
      FuncMap.jsonCompact pkg v = encoding ∧
      FuncMap.json pkg v = FuncMap.jsonCompact pkg v ++ "\n") ∧
    (∀ e, pkg.compact (encoding ++ "\n") = .error e → FuncMap.jsonCompact pkg v = "") ∧
    FuncMap.json Go.jsonPkg Go.mapA1 = "\x7b\"a\":1\x7d\n" ∧
    FuncMap.jsonCompact Go.jsonPkg Go.mapA1 = "\x7b\"a\":1\x7d" := by
  have h1 : FuncMap.json pkg v = encoding ++ "\n" := by
    unfold FuncMap.json
    rw [hEncode]
  have h2 : ∀ out, pkg.compact (encoding ++ "\n") = .ok out →
      FuncMap.jsonCompact pkg v = out := by
    intro out hCompact
    unfold FuncMap.jsonCompact
    simp only [hEncode, hCompact]
  refine ⟨h1, h2, ?_, ?_, by decide, by decide⟩
  · intro hCompact
    rw [h1, h2 encoding hCompact]
    exact ⟨rfl, rfl⟩
  · intro e hCompact
    unfold FuncMap.jsonCompact
    simp only [hEncode, hCompact]

/-- C16, witness: the model of `encoding/json` encodes the map `{"a":1}` as
`{"a":1}` and a newline and compacts these bytes to `{"a":1}`, so on it `json`
is `jsonCompact` followed by a newline. -/
theorem C16_json_helpers_witness :
    Go.jsonPkg.encode Go.mapA1 = .ok ("\x7b\"a\":1\x7d" ++ "\n") ∧
    Go.jsonPkg.compact ("\x7b\"a\":1\x7d" ++ "\n") = .ok "\x7b\"a\":1\x7d" ∧
    FuncMap.json Go.jsonPkg Go.mapA1 =
      FuncMap.jsonCompact Go.jsonPkg Go.mapA1 ++ "\n" :=
  ⟨rfl, rfl,
    ((C16_json_helpers Go.jsonPkg Go.mapA1 "\x7b\"a\":1\x7d"
      rfl).2.2.1 rfl).2⟩

/-- C17: a template text that needs the helpers parses when `GetTemplate` gets it
inline and fails with the template error of the file when it is the content of
the file at a non-empty path and the inline text is empty; so it is for the
texts `{{json .}}` and `{{jsonCompact .}}`, which parse inline and whose files
fail with the error that the function is not defined. -/
theorem C17_helpers_missing_for_files (tpath : String) (files : List (String × String))
    (hpath : tpath ≠ "") :
    (∀ {T : Type} (env : Env T) (text : String) (t : T) (e : String), text ≠ "" →
      env.parse true text = .ok t → env.parse false text = .error e →
      env.readFile tpath = .ok text →
        GetTemplate env text "" = (some t, none) ∧
        GetTemplate env "" tpath = (none, some (GoError.wrapf (GoError.ext e)
          "failed to parse template from file %q" tpath))) ∧
    (files.lookup tpath = some "\x7b\x7bjson .\x7d\x7d" →
      GetTemplate (Go.envWith files) "\x7b\x7bjson .\x7d\x7d" "" =
        (some [Go.Node.call Go.Helper.json], none) ∧
      GetTemplate (Go.envWith files) "" tpath =
        (none, some (GoError.wrapf (GoError.ext "template: body:1: function \"json\" not defined")
          "failed to parse template from file %q" tpath))) ∧
    (files.lookup tpath = some "\x7b\x7bjsonCompact .\x7d\x7d" →
      GetTemplate (Go.envWith files) "\x7b\x7bjsonCompact .\x7d\x7d" "" =
        (some [Go.Node.call Go.Helper.jsonCompact], none) ∧
      GetTemplate (Go.envWith files) "" tpath =
        (none, some (GoError.wrapf
          (GoError.ext "template: body:1: function \"jsonCompact\" not defined")
          "failed to parse template from file %q" tpath))) := by
  have gen : ∀ {T : Type} (env : Env T) (text : String) (t : T) (e : String), text ≠ "" →
      env.parse true text = .ok t → env.parse false text = .error e →
      env.readFile tpath = .ok text →
        GetTemplate env text "" = (some t, none) ∧
        GetTemplate env "" tpath = (none, some (GoError.wrapf (GoError.ext e)
          "failed to parse template from file %q" tpath)) := by
    intro T env text t e hne hin hfile hread
    constructor
    · rw [GetTemplate_inline env text "" hne, hin]
    · rw [GetTemplate_file env tpath hpath, hread]
      dsimp only
      rw [hfile]
  refine ⟨gen, ?_, ?_⟩
  · intro hl
    refine gen (Go.envWith files) "\x7b\x7bjson .\x7d\x7d" [Go.Node.call Go.Helper.json]
      "template: body:1: function \"json\" not defined" (by decide) rfl rfl ?_
    show (match files.lookup tpath with
      | some data => Except.ok data
      | none => Except.error ("open " ++ tpath ++ ": no such file or directory")) = _
    rw [hl]
  · intro hl
    refine gen (Go.envWith files) "\x7b\x7bjsonCompact .\x7d\x7d"
      [Go.Node.call Go.Helper.jsonCompact]
      "template: body:1: function \"jsonCompact\" not defined" (by decide) rfl rfl ?_
    show (match files.lookup tpath with
      | some data => Except.ok data
      | none => Except.error ("open " ++ tpath ++ ": no such file or directory")) = _
    rw [hl]

/-- C17, witness: with the file `/etc/alert.tmpl` holding `{{json .}}`, the text
parses inline and the file fails. -/
theorem C17_helpers_missing_for_files_witness :
    GetTemplate (Go.envWith [("/etc/alert.tmpl", "\x7b\x7bjson .\x7d\x7d")])
      "\x7b\x7bjson .\x7d\x7d" "" = (some [Go.Node.call Go.Helper.json], none) ∧
    GetTemplate (Go.envWith [("/etc/alert.tmpl", "\x7b\x7bjson .\x7d\x7d")]) ""
      "/etc/alert.tmpl" =
      (none, some (GoError.wrapf (GoError.ext "template: body:1: function \"json\" not defined")
        "failed to parse template from file %q" "/etc/alert.tmpl")) :=
  (C17_helpers_missing_for_files "/etc/alert.tmpl"
    [("/etc/alert.tmpl", "\x7b\x7bjson .\x7d\x7d")] (by decide)).2.1 (by decide)

/-- C18: for every non-empty path with the inline text empty, `GetTemplate`
returns no template and the read error naming the path when reading the file
fails; no template and the template error naming the path when the file is read
and its contents do not parse; and otherwise the template parsed from the
contents and no error. -/
theorem C18_GetTemplate_from_file {T : Type} (env : Env T) (tpath : String)
    (hpath : tpath ≠ "") :
    (∀ e, env.readFile tpath = .error e →
      GetTemplate env "" tpath = (none, some (GoError.wrapf (GoError.ext e)
        "failed to read template file %q" tpath))) ∧
    (∀ data e, env.readFile tpath = .ok data → env.parse false data = .error e →
      GetTemplate env "" tpath = (none, some (GoError.wrapf (GoError.ext e)
        "failed to parse template from file %q" tpath))) ∧
    (∀ data t, env.readFile tpath = .ok data → env.parse false data = .ok t →
      GetTemplate env "" tpath = (some t, none)) := by
  refine ⟨?_, ?_, ?_⟩
  · intro e hread
    rw [GetTemplate_file env tpath hpath, hread]
  · intro data e hread hparse
    rw [GetTemplate_file env tpath hpath, hread]
    dsimp only
    rw [hparse]
  · intro data t hread hparse
    rw [GetTemplate_file env tpath hpath, hread]
    dsimp only
    rw [hparse]

/-- C18, witness: on a filesystem with a file holding an unclosed action and a file
holding a field action, the first path gives the template error, the second its
template, and a third path the read error. -/
theorem C18_GetTemplate_from_file_witness :
    GetTemplate (Go.envWith [("/a.tmpl", "\x7b\x7b"), ("/b.tmpl", "\x7b\x7b.ID\x7d\x7d")])
      "" "/a.tmpl" =
      (none, some (GoError.wrapf (GoError.ext "template: body:1: unclosed action")
        "failed to parse template from file %q" "/a.tmpl")) ∧
    GetTemplate (Go.envWith [("/a.tmpl", "\x7b\x7b"), ("/b.tmpl", "\x7b\x7b.ID\x7d\x7d")])
      "" "/b.tmpl" = (some [Go.Node.field ["ID"]], none) ∧
    GetTemplate (Go.envWith [("/a.tmpl", "\x7b\x7b"), ("/b.tmpl", "\x7b\x7b.ID\x7d\x7d")])
      "" "/c.tmpl" =
      (none, some (GoError.wrapf (GoError.ext "open /c.tmpl: no such file or directory")
        "failed to read template file %q" "/c.tmpl")) :=
  ⟨(C18_GetTemplate_from_file _ "/a.tmpl" (by decide)).2.1 _ _ rfl rfl,
    (C18_GetTemplate_from_file _ "/b.tmpl" (by decide)).2.2 _ _ rfl rfl,
    (C18_GetTemplate_from_file _ "/c.tmpl" (by decide)).1 _ rfl⟩

/-- C19: for every Config for which `Validate` returns no error, `getURLTemplate`
returns a non-nil template and no error; hence for a collection that passed
`Configs.Validate` the url template of every Config resolves, the error of
`index` is never the one of the failed-to-get-url branch, and every Endpoint of
the mapping `index` returns was constructed with a non-nil url template. -/
theorem C19_url_template_resolves {T E : Type} (env : Env T)
    (newEndpoint : Option T → List (String × String) → BasicAuth → Option T → Option T → E)
    (cs : Configs) (hvalid : Configs.Validate env cs = none) :
    (∀ c : Config, c.Validate env = none → ∃ t, c.getURLTemplate env = (some t, none)) ∧
    (∀ c ∈ cs, ∃ t, c.getURLTemplate env = (some t, none)) ∧
    (∀ (e : GoError) (name : String), (Configs.index env newEndpoint cs).2 ≠
      some (GoError.wrapf e "failed to get url for endpoint %q" name)) ∧
    (∀ m, Configs.index env newEndpoint cs = (some m, none) →
      ∀ p ∈ m, ∃ c ∈ cs, ∃ t, p = (c.Endpoint, newEndpoint (some t) c.Headers c.BasicAuth
        (c.getAlertTemplate env).1 (c.getRowTemplate env).1)) := by
  have hall : ∀ c ∈ cs, ∃ t, c.getURLTemplate env = (some t, none) := fun c hc =>
    getURLTemplate_of_Validate env c ((Configs_Validate_eq_none_iff_aux env cs).1 hvalid c hc)
  refine ⟨getURLTemplate_of_Validate env, hall, ?_, ?_⟩
  · intro e name herr
    obtain ⟨c, hc, h⟩ := indexLoop_error_origin env newEndpoint cs [] _ herr
    obtain ⟨t, ht⟩ := hall c hc
    rcases h with ⟨e2, _, h2⟩ | ⟨e2, _, h2⟩ | ⟨e2, h1, _⟩
    · simp only [GoError.wrapf.injEq] at h2
      exact absurd h2.2.1 (by decide)
    · simp only [GoError.wrapf.injEq] at h2
      exact absurd h2.2.1 (by decide)
    · rw [ht] at h1
      cases h1
  · intro m hm p hp
    rcases indexLoop_entries env newEndpoint cs [] m hm p hp with h | ⟨c, hc, h⟩
    · cases h
    · obtain ⟨t, ht⟩ := hall c hc
      refine ⟨c, hc, t, ?_⟩
      rw [h, ht]

/-- C19, witness: the collection of the default configuration passes `Validate`, and
the one Endpoint of its index holds the parsed url template. -/
theorem C19_url_template_resolves_witness :
    Configs.Validate Go.env [NewConfig] = none ∧
    (∃ t, NewConfig.getURLTemplate Go.env = (some t, none)) ∧
    Configs.index Go.env NewEndpoint [NewConfig] =
      (some [("example", NewEndpoint (some [Go.Node.text "http://example.com"]) [] ⟨"", ""⟩
        none none)], none) :=
  ⟨by decide,
    (C19_url_template_resolves Go.env NewEndpoint [NewConfig] (by decide)).2.1 NewConfig
      (List.mem_singleton.2 rfl),
    by decide⟩

end Httppost
